import Mathlib

/-!
Shallow embedding of the juncture-core-server connection/credential
lifecycle engine (TypeScript sources under src/), covering:

* the relational store tables `connection`, `connection_external_map` and
  `jira_connection` (src/src/db/schema.ts) together with the constraint
  checks the PostgreSQL backend enforces (primary keys, foreign keys),
* the Redis cache, partitioned by the literal key prefixes the code uses
  (`access_token:`, `connection_id:`, `connection_details:`,
  `connection_code:`, `jira_connection_details:`, plus the prefixless keys
  used for OAuth state nonces and access-token markers, which share one
  namespace and may therefore collide),
* the connection-store helpers of src/unnamed/part_013
  (`connection_db_helpers`), the token cache/refresh broker of
  src/src/utils/credential_helpers.ts, the handoff-code helpers of
  src/src/utils/integration_helpers/general.ts and jira.ts, the finalize
  controller of src/unnamed/part_016, the OAuth controller of
  src/src/controller/frontend/oauth.controller.ts (second revision, the
  one the specification describes), and `verifySecretKey` of
  src/unnamed/part_012.

Modelling conventions:

* JavaScript `Date` values are epoch milliseconds (`Int`); `Date.now()` is
  a `now` field of the `World` state, frozen for the duration of one
  request handler.
* A JavaScript value that may be `undefined` at runtime is an `Option`.
* Redis entries carry an absolute expiry timestamp; a read returns the
  value only while `now` is strictly before that timestamp, which models
  the `ex` TTL argument of `redis.set`.  The cache can also be `down`, in
  which case every read is a miss and every write is silently dropped
  (the code treats cache failures as non-fatal everywhere).
* Outbound HTTP calls to the provider token endpoint are oracles: the
  outcome is an explicit argument, and each call performed is recorded in
  a trace list so that theorems can talk about which provider calls a
  request issued.
* The SQL transaction primitive (`drizzle.transaction`) is all-or-nothing:
  the staged database is threaded through an `Except`; any error aborts
  the whole transaction and the original database is kept.
* The database backend is assumed reachable: only constraint violations
  are modelled as write failures.
-/

/-- The `provider` enum of the schema (only `jira`). -/
inductive Provider
  | jira
  deriving Repr, DecidableEq, BEq

/-- A row of the `connection` table.  Timestamps are epoch milliseconds. -/
structure ConnectionRow where
  connectionId : String
  refreshToken : String
  expiresAt : Int
  invalidRefreshToken : Bool
  createdAt : Int
  lastUpdated : Int
  deriving Repr, DecidableEq

/-- A row of the `connection_external_map` table. -/
structure ExternalMapRow where
  externalId : String
  provider : Provider
  connectionId : String
  deriving Repr, DecidableEq

/-- A row of the `jira_connection` table. -/
structure JiraConnectionRow where
  connectionId : String
  jiraSiteId : String
  selectedJiraProjectId : Option String
  createdAt : Int
  lastUpdated : Int
  deriving Repr, DecidableEq

/-- The durable relational store. -/
structure Db where
  connections : List ConnectionRow
  externalMap : List ExternalMapRow
  jiraConnections : List JiraConnectionRow
  deriving Repr, DecidableEq

/-- Constraint-violation classes the PostgreSQL backend can report
(`23505`, `23503`, `23502`, anything else). -/
inductive DbError
  | uniqueViolation
  | fkViolation
  | notNullViolation
  | other
  deriving Repr, DecidableEq

/-- The `ExtendTransaction` callback type: a unit of work run against the
open transaction handle, i.e. against the staged database. -/
def TxStep : Type := Db → Except DbError Db

/-- `INSERT INTO connection`: fails on a duplicate primary key. -/
def insertConnection (db : Db) (r : ConnectionRow) : Except DbError Db :=
  if db.connections.any (fun c => c.connectionId = r.connectionId) then
    .error .uniqueViolation
  else
    .ok { db with connections := db.connections ++ [r] }

/-- `INSERT INTO connection_external_map`: fails on a duplicate composite
primary key `(external_id, provider)`, on a dangling `connection_id`
foreign key, or on a null `external_id`. -/
def insertExternalMap (db : Db) (externalId : Option String) (p : Provider)
    (cid : String) : Except DbError Db :=
  match externalId with
  | none => .error .notNullViolation
  | some e =>
    if db.externalMap.any (fun r => r.externalId = e ∧ r.provider = p) then
      .error .uniqueViolation
    else if db.connections.any (fun c => c.connectionId = cid) then
      .ok { db with externalMap := db.externalMap ++ [⟨e, p, cid⟩] }
    else
      .error .fkViolation

/-- `INSERT INTO jira_connection`: fails on a duplicate primary key or a
dangling `connection_id` foreign key. -/
def insertJiraConnection (db : Db) (r : JiraConnectionRow) : Except DbError Db :=
  if db.jiraConnections.any (fun c => c.connectionId = r.connectionId) then
    .error .uniqueViolation
  else if db.connections.any (fun c => c.connectionId = r.connectionId) then
    .ok { db with jiraConnections := db.jiraConnections ++ [r] }
  else
    .error .fkViolation

/-- The body stored under an OAuth state nonce
(`RedisOAuthStateBody` in oauth.controller.ts).  Both fields can be
`undefined` at runtime, hence `Option`. -/
structure OAuthStateBody where
  external_id : Option String
  juncture_public_key : Option String
  deriving Repr, DecidableEq

/-- The handoff-code payload (`ConnectionCodeCacheBody` in
integration_helpers/general.ts).  The TypeScript type also has an
optional `extendTransaction` function field; a function value does not
survive JSON serialization into Redis and no reader of the cached body
uses it, so it is omitted from the embedded record. -/
structure ConnectionCodeCacheBody where
  connection_id : String
  provider : String
  external_id : Option String
  refresh_token : String
  connection_expiry_date : Int
  juncture_project_id : Option String
  is_new_connection : Bool
  deriving Repr, DecidableEq

/-- Values stored under prefixless (root) Redis keys: OAuth state bodies
(keyed by the state nonce) and the `'1'` markers `storeAccessToken`
writes (keyed by the raw access-token string).  These two uses share one
namespace, so a marker write can in principle overwrite a state entry
whose nonce equals the access-token string. -/
inductive RootVal
  | state (body : OAuthStateBody)
  | marker (s : String)
  deriving Repr, DecidableEq

/-- Cached jira connection detail projection
(`{siteId, selectedProjectId}`). -/
structure JiraDetailsVal where
  siteId : String
  selectedProjectId : Option String
  deriving Repr, DecidableEq

/-- A cache entry: a value plus the absolute epoch-millisecond time at
which it expires (set from the `ex` TTL of `redis.set`). -/
structure Entry (α : Type) where
  val : α
  expiresAt : Int
  deriving Repr, DecidableEq

/-- Association-list read used by every cache namespace. -/
def assocFind {κ α : Type} [DecidableEq κ] : List (κ × α) → κ → Option α
  | [], _ => none
  | (k, v) :: rest, k0 => if k = k0 then some v else assocFind rest k0

/-- Association-list write: replaces any previous binding of the key. -/
def assocSet {κ α : Type} [DecidableEq κ] (l : List (κ × α)) (k : κ) (v : α) :
    List (κ × α) :=
  (k, v) :: l.filter (fun p => ¬(p.fst = k))

/-- Association-list delete. -/
def assocDel {κ α : Type} [DecidableEq κ] (l : List (κ × α)) (k : κ) :
    List (κ × α) :=
  l.filter (fun p => ¬(p.fst = k))

/-- The live contents of the Redis cache, partitioned by the literal key
prefixes the code uses.  Keys of distinct namespaces are distinct strings
because their prefixes differ; the prefixless `root` namespace holds both
state nonces and access-token markers, which genuinely share a keyspace. -/
structure CacheStore where
  root : List (String × Entry RootVal)
  accessTokens : List (String × Entry String)
  connIds : List ((Provider × String) × Entry String)
  connDetails : List (String × Entry ConnectionRow)
  connCodes : List ((String × String) × Entry ConnectionCodeCacheBody)
  jiraDetails : List (String × Entry JiraDetailsVal)
  deriving Repr, DecidableEq

/-- The cache client: either live with contents, or down.  When down,
every read misses and every write is silently dropped, which is how the
code treats cache failures (logged and swallowed). -/
inductive Cache
  | live (s : CacheStore)
  | down
  deriving Repr, DecidableEq

/-- TTL-aware entry read: the value is visible only strictly before its
expiry instant. -/
def entryGet {κ α : Type} [DecidableEq κ] (now : Int)
    (l : List (κ × Entry α)) (k : κ) : Option α :=
  match assocFind l k with
  | some e => if now < e.expiresAt then some e.val else none
  | none => none

/-- Entry write with an `ex`-style TTL in seconds. -/
def entrySet {κ α : Type} [DecidableEq κ] (now : Int)
    (l : List (κ × Entry α)) (k : κ) (v : α) (ex : Int) :
    List (κ × Entry α) :=
  assocSet l k ⟨v, now + ex * 1000⟩

def Cache.getRootEntry (c : Cache) (k : String) : Option (Entry RootVal) :=
  match c with
  | .down => none
  | .live s => assocFind s.root k

def Cache.getRoot (c : Cache) (now : Int) (k : String) : Option RootVal :=
  match c with
  | .down => none
  | .live s => entryGet now s.root k

def Cache.setRoot (c : Cache) (now : Int) (k : String) (v : RootVal)
    (ex : Int) : Cache :=
  match c with
  | .down => .down
  | .live s => .live { s with root := entrySet now s.root k v ex }

def Cache.getAccessTokenEntry (c : Cache) (now : Int) (k : String) :
    Option (Entry String) :=
  match c with
  | .down => none
  | .live s =>
    match assocFind s.accessTokens k with
    | some e => if now < e.expiresAt then some e else none
    | none => none

def Cache.setAccessToken (c : Cache) (now : Int) (k : String) (v : String)
    (ex : Int) : Cache :=
  match c with
  | .down => .down
  | .live s => .live { s with accessTokens := entrySet now s.accessTokens k v ex }

def Cache.getConnId (c : Cache) (now : Int) (k : Provider × String) :
    Option String :=
  match c with
  | .down => none
  | .live s => entryGet now s.connIds k

def Cache.setConnId (c : Cache) (now : Int) (k : Provider × String)
    (v : String) (ex : Int) : Cache :=
  match c with
  | .down => .down
  | .live s => .live { s with connIds := entrySet now s.connIds k v ex }

def Cache.getConnDetails (c : Cache) (now : Int) (k : String) :
    Option ConnectionRow :=
  match c with
  | .down => none
  | .live s => entryGet now s.connDetails k

def Cache.setConnDetails (c : Cache) (now : Int) (k : String)
    (v : ConnectionRow) (ex : Int) : Cache :=
  match c with
  | .down => .down
  | .live s => .live { s with connDetails := entrySet now s.connDetails k v ex }

def Cache.getConnCode (c : Cache) (now : Int) (k : String × String) :
    Option ConnectionCodeCacheBody :=
  match c with
  | .down => none
  | .live s => entryGet now s.connCodes k

def Cache.setConnCode (c : Cache) (now : Int) (k : String × String)
    (v : ConnectionCodeCacheBody) (ex : Int) : Cache :=
  match c with
  | .down => .down
  | .live s => .live { s with connCodes := entrySet now s.connCodes k v ex }

def Cache.delConnCode (c : Cache) (k : String × String) : Cache :=
  match c with
  | .down => .down
  | .live s => .live { s with connCodes := assocDel s.connCodes k }

def Cache.getJiraDetails (c : Cache) (now : Int) (k : String) :
    Option JiraDetailsVal :=
  match c with
  | .down => none
  | .live s => entryGet now s.jiraDetails k

def Cache.setJiraDetails (c : Cache) (now : Int) (k : String)
    (v : JiraDetailsVal) (ex : Int) : Cache :=
  match c with
  | .down => .down
  | .live s => .live { s with jiraDetails := entrySet now s.jiraDetails k v ex }

/-- The mutable state a request handler acts on: the durable store, the
cache, and the frozen `Date.now()` of the request. -/
structure World where
  db : Db
  cache : Cache
  now : Int
  deriving Repr, DecidableEq

/-- Environment-style configuration (already-resolved env values). -/
structure Env where
  cloudMode : Bool
  junctureSecretKey : Option String
  defaultJiraClientId : String
  defaultJiraClientSecret : String
  defaultJiraScopes : List String
  defaultJiraSiteRedirectUri : String
  defaultJiraRedirectUri : String
  deriving Repr

/-- Template-literal rendering of a possibly-undefined string, matching
JavaScript string interpolation (`undefined` renders as "undefined"). -/
def jsStr : Option String → String
  | some s => s
  | none => "undefined"

/-- Cache expiration, in seconds, used by connection_db_helpers (24 h). -/
def CACHE_EXPIRY : Int := 86400

/-- The customer OAuth application credentials record returned by the
cloud collaborator (`OAuthCredentials` in CloudContextManager.ts). -/
structure OAuthCredentials where
  junctureProjectID : String
  clientID : String
  clientSecret : String
  scopes : List String
  siteRedirectURI : String
  deriving Repr, DecidableEq

/-- `GetOAuthCredentialsOptions` of oauth_helpers.ts: a juncture public
key or a project id. -/
inductive GetOAuthCredentialsOptions
  | publicKey (juncture_public_key : String)
  | projectId (projectId : String)
  deriving Repr, DecidableEq

/-- The multi-tenant collaborator interface (CloudContextManager.ts);
its operations act on the external juncture-cloud store, which is out of
scope, so they are pure oracles here. -/
structure CloudContextManager where
  getOAuthCredentials : Provider → GetOAuthCredentialsOptions → Option OAuthCredentials
  getOAuthCredentialsByKey : Provider → String → Option OAuthCredentials
  addConnection : String → Option String → Provider → String → String → Int → Bool
  updateConnection : String → String → Int → Bool
  getConnectionID : Option String → Provider → String → Option String
  verifySecretKey : String → Option String

/-- `GetOAuthCredentialsResponse`: resolved client credentials or an
error record. -/
inductive GetOAuthCredentialsResponse
  | ok (client_id : String) (client_secret : String) (scopes : List String)
      (site_redirect_uri : String) (juncture_project_id : Option String)
  | error (msg : String)
  deriving Repr, DecidableEq

/-- `getOAuthCredentials` of src/src/utils/oauth_helpers.ts. -/
def getOAuthCredentials (env : Env) (ccm : CloudContextManager)
    (provider : Provider) (options : Option GetOAuthCredentialsOptions) :
    GetOAuthCredentialsResponse :=
  if env.cloudMode then
    match options with
    | none => .error "Please provide a juncture public key"
    | some opts =>
      match ccm.getOAuthCredentials provider opts with
      | none => .error "Invalid juncture public key"
      | some credentials =>
        .ok credentials.clientID credentials.clientSecret credentials.scopes
          credentials.siteRedirectURI (some credentials.junctureProjectID)
  else
    match provider with
    | .jira =>
      .ok env.defaultJiraClientId env.defaultJiraClientSecret
        env.defaultJiraScopes env.defaultJiraSiteRedirectUri none

/-- One outbound call to the provider token endpoint, as recorded in the
trace an operation returns. -/
inductive ProviderCall
  | refreshTokenGrant (refresh_token : String) (client_id : String)
      (client_secret : String)
  | authorizationCodeGrant (code : String) (client_id : String)
      (client_secret : String)
  deriving Repr, DecidableEq

/-- The observable part of an axios error for a failed token-endpoint
call: the HTTP response, if one was received (none models a pure network
error), its status, whether `response.data` is truthy, and the
`response.data.error` field. -/
structure AxiosErrorResponse where
  status : Int
  hasData : Bool
  dataError : Option String
  deriving Repr, DecidableEq

/-- Oracle outcome of one call to the provider token endpoint. -/
inductive TokenEndpointOutcome
  | ok (access_token : String) (refresh_token : String) (expires_in : Int)
  | err (response : Option AxiosErrorResponse)
  deriving Repr, DecidableEq

/-- The invalid-grant error shape tested by the refresh path: an HTTP 403
response whose truthy `data` has `error === 'invalid_grant'`. -/
def isInvalidGrantShape : Option AxiosErrorResponse → Bool
  | some r => r.status == 403 && r.hasData && r.dataError == some "invalid_grant"
  | none => false

/- ------------------------------------------------------------------
connection_db_helpers (src/unnamed/part_013)
------------------------------------------------------------------ -/

/-- The body of the `drizzle.transaction` callback of `addConnectionToDB`:
insert the `connection` row, insert the `connection_external_map` row,
then run the optional transaction extension on the staged database. -/
def addConnectionTxBody (db : Db) (newRow : ConnectionRow)
    (external_id : Option String) (provider : Provider)
    (connection_id : String) (extendTransaction : Option TxStep) :
    Except DbError Db := do
  let db1 ← insertConnection db newRow
  let db2 ← insertExternalMap db1 external_id provider connection_id
  match extendTransaction with
  | some f => f db2
  | none => pure db2

/-- `addConnectionToDB`: inserts the `connection` row and the
`connection_external_map` row, runs the optional transaction extension,
all inside one transaction; on success refreshes the two cache
projections (fire-and-forget) and returns true, on any transaction error
returns false with the database rolled back. -/
def addConnectionToDB (w : World) (connection_id : String)
    (external_id : Option String) (refresh_token : String) (expires_at : Int)
    (provider : Provider) (extendTransaction : Option TxStep) : Bool × World :=
  let newRow : ConnectionRow :=
    { connectionId := connection_id
      refreshToken := refresh_token
      expiresAt := expires_at
      invalidRefreshToken := false
      createdAt := w.now
      lastUpdated := w.now }
  match addConnectionTxBody w.db newRow external_id provider connection_id
      extendTransaction with
  | .error _ => (false, w)
  | .ok db3 =>
    let c1 := w.cache.setConnId w.now (provider, jsStr external_id)
      connection_id CACHE_EXPIRY
    let c2 := c1.setConnDetails w.now connection_id newRow CACHE_EXPIRY
    (true, { w with
             db := db3
             cache := c2 })

/-- `updateConnectionInDB`: updates refresh token, expiry and
`last_updated` of the matching `connection` rows and runs the optional
transaction extension in the same transaction; refreshes the details
cache only when at least one row was updated; returns true even when the
update matched zero rows (the zero-row update commits without error). -/
def updateConnectionInDB (w : World) (connection_id : String)
    (refresh_token : String) (expires_at : Int)
    (extendTransaction : Option TxStep) : Bool × World :=
  let updatedConnection := (w.db.connections.filter
      (fun c => c.connectionId = connection_id)).map
      (fun c => { c with
                  refreshToken := refresh_token
                  expiresAt := expires_at
                  lastUpdated := w.now })
  let mapped := w.db.connections.map
      (fun c => if c.connectionId = connection_id then
          { c with
            refreshToken := refresh_token
            expiresAt := expires_at
            lastUpdated := w.now }
        else c)
  let db1 : Db := { w.db with connections := mapped }
  let tx : Except DbError Db :=
    match extendTransaction with
    | some f => f db1
    | none => pure db1
  match tx with
  | .error _ => (false, w)
  | .ok db2 =>
    match updatedConnection with
    | u :: _ =>
      (true, { w with
               db := db2
               cache := w.cache.setConnDetails w.now connection_id u CACHE_EXPIRY })
    | [] => (true, { w with db := db2 })

/-- `updateConnectionInvalidFlag`: sets the `invalid_refresh_token` flag
(and `last_updated`) on the matching rows and refreshes the details cache
when a row was updated. -/
def updateConnectionInvalidFlag (w : World) (connection_id : String)
    (isInvalid : Bool) : Bool × World :=
  let updated := (w.db.connections.filter
      (fun c => c.connectionId = connection_id)).map
      (fun c => { c with
                  invalidRefreshToken := isInvalid
                  lastUpdated := w.now })
  let mapped := w.db.connections.map
      (fun c => if c.connectionId = connection_id then
          { c with
            invalidRefreshToken := isInvalid
            lastUpdated := w.now }
        else c)
  let db1 : Db := { w.db with connections := mapped }
  match updated with
  | u :: _ =>
    (true, { w with
             db := db1
             cache := w.cache.setConnDetails w.now connection_id u CACHE_EXPIRY })
  | [] => (true, { w with db := db1 })

/-- `getConnectionID`: cache-aside lookup of `(external_id, provider) →
connection_id`.  A cached empty string is falsy in JavaScript and is
treated as a miss; on a miss the `connection_external_map` table is
queried and a hit is written back to the cache (fire-and-forget). -/
def getConnectionID (w : World) (external_id : Option String)
    (provider : Provider) : Option String × World :=
  let cacheKey : Provider × String := (provider, jsStr external_id)
  let dbPath : Option String × World :=
    match w.db.externalMap.find?
        (fun r => external_id == some r.externalId && r.provider == provider) with
    | none => (none, w)
    | some row =>
      let c1 := w.cache.setConnId w.now cacheKey row.connectionId CACHE_EXPIRY
      (some row.connectionId, { w with cache := c1 })
  match w.cache.getConnId w.now cacheKey with
  | some cachedConnectionId =>
    if cachedConnectionId = "" then dbPath else (some cachedConnectionId, w)
  | none => dbPath

/-- `getConnectionDetails`: cache-aside read of the full `connection`
row; the cached JSON round trip (with date revival) is the identity
here.  A db hit is written back to the cache (fire-and-forget). -/
def getConnectionDetails (w : World) (connection_id : String) :
    Option ConnectionRow × World :=
  match w.cache.getConnDetails w.now connection_id with
  | some cached => (some cached, w)
  | none =>
    match w.db.connections.find? (fun c => c.connectionId == connection_id) with
    | none => (none, w)
    | some details =>
      let c1 := w.cache.setConnDetails w.now connection_id details CACHE_EXPIRY
      (some details, { w with cache := c1 })

/- ------------------------------------------------------------------
credential_helpers (src/src/utils/credential_helpers.ts)
------------------------------------------------------------------ -/

/-- `GetNewAccessTokenResponse`: an access token with its remaining
lifetime, or an error record. -/
inductive GetNewAccessTokenResponse
  | ok (accessToken : String) (expiresIn : Int)
  | error (msg : String)
  deriving Repr, DecidableEq

/-- `storeAccessTokenInRedis`: caches the token under
`access_token:<connectionId>` with TTL `expiresIn` seconds. -/
def storeAccessTokenInRedis (w : World) (accessToken : String)
    (expiresIn : Int) (connectionId : String) : World :=
  { w with cache := w.cache.setAccessToken w.now connectionId accessToken expiresIn }

/-- `getAccessTokenFromRedis`: pipelined GET + TTL on
`access_token:<connectionId>`.  A missing or empty (falsy) value yields
the not-found error; otherwise the token and its remaining TTL in
seconds are returned. -/
def getAccessTokenFromRedis (w : World) (connectionId : String) :
    GetNewAccessTokenResponse :=
  match w.cache.getAccessTokenEntry w.now connectionId with
  | none => .error "Access token not found in Redis"
  | some e =>
    if e.val = "" then .error "Access token not found in Redis"
    else .ok e.val ((e.expiresAt - w.now) / 1000)

/-- `getNewAccessTokenFromConnection`: loads the connection detail (4.4),
fails immediately when the connection is missing, flagged invalid, or
past its expiry; otherwise resolves OAuth credentials and calls the
provider refresh endpoint (outcome given by the `refreshOutcome` oracle,
the call recorded in the trace).  An invalid-grant-shaped error marks
the connection invalid (fire-and-forget) and fails with the
needs-reauthorization message; any other error fails with the transient
message; success caches the new access token and persists the rotated
refresh token with the expiry extended by the token lifetime. -/
def getNewAccessTokenFromConnection (env : Env) (ccm : CloudContextManager)
    (refreshOutcome : TokenEndpointOutcome) (w : World)
    (connectionId : String) (provider : Provider)
    (projectId : Option String) :
    GetNewAccessTokenResponse × World × List ProviderCall :=
  match getConnectionDetails w connectionId with
  | (none, w1) => (.error "Connection not found", w1, [])
  | (some connectionDetails, w1) =>
    let refreshToken := connectionDetails.refreshToken
    let expiresAt := connectionDetails.expiresAt
    let isInvalid := connectionDetails.invalidRefreshToken || expiresAt < w.now
    if isInvalid then
      (.error "Connection is invalid or expired. Please reauthorize the connection.",
       w1, [])
    else
      let options : Option GetOAuthCredentialsOptions :=
        match projectId with
        | some p => if p = "" then none else some (.projectId p)
        | none => none
      match getOAuthCredentials env ccm provider options with
      | .error _ => (.error "Failed to get OAuth credentials", w1, [])
      | .ok client_id client_secret _ _ _ =>
        match provider with
        | .jira =>
          let call := ProviderCall.refreshTokenGrant refreshToken client_id
            client_secret
          match refreshOutcome with
          | .err e =>
            if isInvalidGrantShape e then
              let (_, w2) := updateConnectionInvalidFlag w1 connectionId true
              (.error "Connection is invalid. The refresh token is no longer valid. Please reauthorize the connection.",
               w2, [call])
            else
              (.error "Failed to refresh access token", w1, [call])
          | .ok access_token refresh_token expires_in =>
            let accessToken := access_token
            let expiresIn := expires_in - 300
            let w2 := storeAccessTokenInRedis w1 accessToken expiresIn connectionId
            let (_, w3) := updateConnectionInDB w2 connectionId refresh_token
              (expiresAt + expiresIn * 1000) none
            (.ok accessToken expiresIn, w3, [call])

/-- `getAccessTokenHelper`: returns the cached access token when the
cache read succeeds, and otherwise falls through to
`getNewAccessTokenFromConnection`. -/
def getAccessTokenHelper (env : Env) (ccm : CloudContextManager)
    (refreshOutcome : TokenEndpointOutcome) (w : World)
    (connectionId : String) (provider : Provider)
    (projectId : Option String) :
    GetNewAccessTokenResponse × World × List ProviderCall :=
  match getAccessTokenFromRedis w connectionId with
  | .error _ =>
    getNewAccessTokenFromConnection env ccm refreshOutcome w connectionId
      provider projectId
  | .ok t e => (.ok t e, w, [])

/- ------------------------------------------------------------------
integration_helpers/general.ts and jira.ts
------------------------------------------------------------------ -/

/-- `GetConnectionDetailsFromConnectionCodeResponse`. -/
inductive GetConnectionDetailsFromConnectionCodeResponse
  | ok (body : ConnectionCodeCacheBody)
  | error (msg : String)
  deriving Repr, DecidableEq

/-- `getConnectionDetailsFromConnectionCode`: resolves a handoff code by
a plain cache read under `connection_code:<provider>:<code>`; it performs
no write and no delete, so the world is untouched. -/
def getConnectionDetailsFromConnectionCode (w : World) (provider : String)
    (code : String) : GetConnectionDetailsFromConnectionCodeResponse :=
  match w.cache.getConnCode w.now (provider, code) with
  | none => .error "Connection ID not found: session is either expired or does not exist"
  | some connectionDetails => .ok connectionDetails

/-- `generateTemporaryConnectionCode`: stores the payload under
`connection_code:<provider>:<code>` with a 15-minute TTL (the random code
is an explicit argument here). -/
def generateTemporaryConnectionCode (w : World) (provider : String)
    (connectionCodeCacheBody : ConnectionCodeCacheBody) (code : String) :
    String × World :=
  (code, { w with cache := w.cache.setConnCode w.now (provider, code)
                    connectionCodeCacheBody 900 })

/-- `JiraConnectionDetailsResponse`. -/
inductive JiraConnectionDetailsResponse
  | ok (siteId : String) (selectedProjectId : Option String)
  | error (msg : String)
  deriving Repr, DecidableEq

/-- `getJiraConnectionDetails` (jira.ts): cache-aside read of the jira
detail projection under `jira_connection_details:<connectionId>`. -/
def getJiraConnectionDetails (w : World) (connectionId : String) :
    JiraConnectionDetailsResponse × World :=
  match w.cache.getJiraDetails w.now connectionId with
  | some cached => (.ok cached.siteId cached.selectedProjectId, w)
  | none =>
    match w.db.jiraConnections.find? (fun c => c.connectionId == connectionId) with
    | none => (.error "Connection not found", w)
    | some row =>
      let c1 := w.cache.setJiraDetails w.now connectionId
        ⟨row.jiraSiteId, row.selectedJiraProjectId⟩ (24 * 60 * 60)
      (.ok row.jiraSiteId row.selectedJiraProjectId, { w with cache := c1 })

/-- Result record of `createConnection` (general.ts):
`{connection_id} | {error}`. -/
inductive CreateConnectionResult
  | ok (connection_id : String)
  | error (msg : String)
  deriving Repr, DecidableEq

namespace IntegrationGeneral

/-- `createConnection` of integration_helpers/general.ts: in OSS mode an
existing connection (`is_new_connection = false`) is updated via
`updateConnectionInDB` and a new one inserted via `addConnectionToDB`,
both receiving the optional transaction extension; in cloud mode the
corresponding CloudContextManager operations are used (they act on the
external cloud store, so only their success flag is visible here). -/
def createConnection (env : Env) (ccm : CloudContextManager) (w : World)
    (connection_id : String) (provider : Provider)
    (external_id : Option String) (refreshToken : String)
    (connectionExpiryDate : Int) (is_new_connection : Bool)
    (juncture_project_id : Option String)
    (extendTransaction : Option TxStep) : CreateConnectionResult × World :=
  if ¬env.cloudMode then
    if ¬is_new_connection then
      match updateConnectionInDB w connection_id refreshToken
          connectionExpiryDate extendTransaction with
      | (false, w1) => (.error "Failed to update connection. Please try again later.", w1)
      | (true, w1) => (.ok connection_id, w1)
    else
      match addConnectionToDB w connection_id external_id refreshToken
          connectionExpiryDate provider extendTransaction with
      | (false, w1) => (.error "Failed to create connection. Please try again later.", w1)
      | (true, w1) => (.ok connection_id, w1)
  else
    match juncture_project_id with
    | none => (.error "Juncture project ID is required", w)
    | some jpid =>
      if jpid = "" then (.error "Juncture project ID is required", w)
      else if ¬(connection_id = "") then
        if ccm.updateConnection connection_id refreshToken connectionExpiryDate then
          (.ok connection_id, w)
        else
          (.error "Failed to update connection. Please try again later.", w)
      else
        if ccm.addConnection connection_id external_id provider jpid
            refreshToken connectionExpiryDate then
          (.ok connection_id, w)
        else
          (.error "Failed to create connection. Please try again later.", w)

end IntegrationGeneral

/- ------------------------------------------------------------------
finalizeJiraConnection.controller (src/unnamed/part_016, second file)
------------------------------------------------------------------ -/

/-- An HTTP response produced by a controller: a success JSON with a
status, an error JSON with a status and message, or a redirect. -/
inductive ApiResponse
  | ok (status : Int)
  | err (status : Int) (msg : String)
  | redirect (location : String)
  deriving Repr, DecidableEq

/-- The `jiraTransaction` extension `createJiraConnection` builds: inside
the open transaction it inserts a fresh `jira_connection` row when no
detail row was found, and otherwise updates the site id of the existing
row (leaving the selected project untouched). -/
def jiraTransaction (connectionId site_id : String) (now : Int)
    (isNewJiraConnectionDetail : Bool) : TxStep := fun tx =>
  if isNewJiraConnectionDetail then
    insertJiraConnection tx
      { connectionId := connectionId
        jiraSiteId := site_id
        selectedJiraProjectId := none
        createdAt := now
        lastUpdated := now }
  else
    let mapped := tx.jiraConnections.map
      (fun j => if j.connectionId = connectionId then
          { j with
            jiraSiteId := site_id
            lastUpdated := now }
        else j)
    .ok { tx with jiraConnections := mapped }

/-- `createJiraConnection` (finalize): resolves the handoff code, probes
the existing jira detail row, commits through
`IntegrationGeneral.createConnection` with `is_new_connection = false`
and a transaction extension that inserts or updates the `jira_connection`
row, and only after a successful commit refreshes the jira-details cache
and deletes the handoff code. -/
def createJiraConnection (env : Env) (ccm : CloudContextManager) (w : World)
    (connection_code : Option String) (site_id : Option String) :
    ApiResponse × World :=
  match connection_code, site_id with
  | some cc, some sid =>
    if cc = "" ∨ sid = "" then
      (.err 400 "Missing connection_code or site_id", w)
    else
      match getConnectionDetailsFromConnectionCode w "jira" cc with
      | .error e => (.err 400 e, w)
      | .ok connectionDetails =>
        let connectionId := connectionDetails.connection_id
        let (jiraConnectionDetailsResponse, w1) :=
          getJiraConnectionDetails w connectionId
        let isNewJiraConnectionDetail :=
          match jiraConnectionDetailsResponse with
          | .error _ => true
          | .ok _ _ => false
        match IntegrationGeneral.createConnection env ccm w1 connectionId
            Provider.jira connectionDetails.external_id
            connectionDetails.refresh_token
            connectionDetails.connection_expiry_date false
            connectionDetails.juncture_project_id
            (some (jiraTransaction connectionId sid w.now
              isNewJiraConnectionDetail)) with
        | (.error e, w2) => (.err 500 e, w2)
        | (.ok _, w2) =>
          let jiraDetailsCacheBody : JiraDetailsVal :=
            { siteId := sid
              selectedProjectId :=
                match jiraConnectionDetailsResponse with
                | .ok _ p => p
                | .error _ => none }
          let c1 := w2.cache.setJiraDetails w2.now connectionId
            jiraDetailsCacheBody (24 * 60 * 60)
          let c2 := c1.delConnCode ("jira", cc)
          (.ok 200, { w2 with cache := c2 })
  | _, _ => (.err 400 "Missing connection_code or site_id", w)

/- ------------------------------------------------------------------
verifySecretKey (src/unnamed/part_012)
------------------------------------------------------------------ -/

/-- `String.prototype.split` with a single-character separator, on the
character list of a string (JavaScript semantics: `"".split(' ')` is
`[""]`, adjacent separators produce empty fields). -/
def splitChar (sep : Char) : List Char → List (List Char)
  | [] => [[]]
  | c :: rest =>
    let r := splitChar sep rest
    if c = sep then [] :: r
    else
      match r with
      | h :: t => (c :: h) :: t
      | [] => [[c]]

/-- JavaScript `split(sep)` for a one-character separator. -/
def jsSplit (sep : Char) (s : String) : List String :=
  (splitChar sep s.data).map (fun l => String.mk l)

/-- JavaScript `startsWith`. -/
def jsStartsWith (p s : String) : Bool :=
  p.data.isPrefixOf s.data

/-- The whitespace characters relevant to `trim` here. -/
def isJsSpace (c : Char) : Bool :=
  c = ' ' ∨ c = '\t' ∨ c = '\n' ∨ c = '\r'

/-- JavaScript `trim`: strips whitespace from both ends. -/
def jsTrim (s : String) : String :=
  String.mk (((s.data.dropWhile isJsSpace).reverse.dropWhile isJsSpace).reverse)

/-- `verifySecretKeyResponse`: validity, optional tenant project id,
optional error message. -/
structure VerifySecretKeyResponse where
  isValid : Bool
  projectId : Option String
  errMsg : Option String
  deriving Repr, DecidableEq

/-- `verifySecretKey`: parses the `Authorization` header (must be
present, start with `Bearer `, and carry a nonempty token after the
prefix), then checks the token against the configured secret (OSS) or
resolves a tenant through the cloud collaborator (cloud). -/
def verifySecretKey (env : Env) (ccm : CloudContextManager)
    (authHeader : Option String) : VerifySecretKeyResponse :=
  match authHeader with
  | none => { isValid := false, projectId := none, errMsg := some "No authorization header provided" }
  | some hdr =>
    if hdr = "" then
      { isValid := false, projectId := none, errMsg := some "No authorization header provided" }
    else if ¬jsStartsWith "Bearer " hdr then
      { isValid := false, projectId := none, errMsg := some "Authorization header must start with \"Bearer\"" }
    else
      let parts := jsSplit ' ' hdr
      if parts.length < 2 then
        { isValid := false, projectId := none, errMsg := some "Invalid Bearer token format" }
      else
        let secretKey := jsTrim (parts.getD 1 "")
        if secretKey = "" then
          { isValid := false, projectId := none, errMsg := some "No secret key provided" }
        else if ¬env.cloudMode then
          if ¬(some secretKey = env.junctureSecretKey) then
            { isValid := false, projectId := none, errMsg := some "Invalid secret key" }
          else
            { isValid := true, projectId := none, errMsg := none }
        else
          match ccm.verifySecretKey secretKey with
          | none => { isValid := false, projectId := none, errMsg := some "Invalid secret key" }
          | some projectId => { isValid := true, projectId := some projectId, errMsg := none }

/- ------------------------------------------------------------------
oauth.controller.ts (second revision): getAuthorizationURI,
authorizationCallback and its helpers
------------------------------------------------------------------ -/

namespace OAuthController

/-- The controller-local `getOAuthCredentials(provider,
juncture_public_key?)`: cloud mode requires a truthy public key and
resolves through the collaborator; OSS mode reads the env-configured
jira credentials. -/
def getOAuthCredentials (env : Env) (ccm : CloudContextManager)
    (provider : Provider) (juncture_public_key : Option String) :
    GetOAuthCredentialsResponse :=
  if env.cloudMode then
    match juncture_public_key with
    | none => .error "Juncture public key is required"
    | some k =>
      if k = "" then .error "Juncture public key is required"
      else
        match ccm.getOAuthCredentialsByKey provider k with
        | none => .error "Invalid juncture public key"
        | some credentials =>
          .ok credentials.clientID credentials.clientSecret credentials.scopes
            credentials.siteRedirectURI (some credentials.junctureProjectID)
  else
    .ok env.defaultJiraClientId env.defaultJiraClientSecret
      env.defaultJiraScopes env.defaultJiraSiteRedirectUri none

/-- Result of `getAuthorizationURI`. -/
inductive AuthUriResponse
  | ok (authorizationUri : String)
  | err (status : Int) (msg : String)
  deriving Repr, DecidableEq

/-- `getAuthorizationURI` (second revision): validates the provider,
resolves credentials, stores `{external_id, juncture_public_key}` under
the freshly generated `state` nonce with a 600-second TTL, and returns
the provider authorization URL embedding the nonce (the random nonce is
the explicit `state` argument here). -/
def getAuthorizationURI (env : Env) (ccm : CloudContextManager) (w : World)
    (state : String) (provider : String) (juncture_public_key : Option String)
    (external_id : Option String) : AuthUriResponse × World :=
  if ¬(provider = "jira") then
    (.err 400 "Invalid provider. Ensure that all provider names are lowercase.", w)
  else
    match getOAuthCredentials env ccm Provider.jira juncture_public_key with
    | .error e => (.err 400 e, w)
    | .ok client_id _ scopes _ _ =>
      let redis_body : OAuthStateBody :=
        { external_id := external_id
          juncture_public_key := juncture_public_key }
      let w1 : World :=
        { w with cache := w.cache.setRoot w.now state (.state redis_body) 600 }
      let authorizationUri :=
        "https://auth.atlassian.com/authorize?" ++
        "audience=api.atlassian.com&" ++
        "client_id=" ++ client_id ++ "&" ++
        "scope=" ++ String.intercalate "%20" (scopes ++ ["offline_access"]) ++ "&" ++
        "redirect_uri=" ++ env.defaultJiraRedirectUri ++ "&" ++
        "state=" ++ state ++ "&" ++
        "response_type=code&" ++
        "prompt=consent"
      (.ok authorizationUri, w1)

/-- Result of `verifyAndExtractState`. -/
inductive VerifyStateResult
  | ok (external_id : Option String) (juncture_public_key : Option String)
  | error (msg : String)
  deriving Repr, DecidableEq

/-- `verifyAndExtractState`: reads the `state` key from the cache; a miss
(absent or expired) yields the invalid-state error; a stored state body
yields its fields.  A non-object value at that key (an access-token
marker, possible because markers share the prefixless namespace) is
truthy in JavaScript, so its absent properties read as `undefined`. -/
def verifyAndExtractState (w : World) (state : String) : VerifyStateResult :=
  match w.cache.getRoot w.now state with
  | none => .error "Invalid state or expired state. Please try again."
  | some (.state storedState) =>
    .ok storedState.external_id storedState.juncture_public_key
  | some (.marker _) => .ok none none

/-- Result of `exchangeCodeForTokens`. -/
inductive ExchangeResult
  | ok (accessToken : String) (refreshToken : String) (expiresIn : Int)
      (connectionExpiryDate : Int)
  | error (msg : String)
  deriving Repr, DecidableEq

/-- `exchangeCodeForTokens`: posts the authorization-code grant to the
provider token endpoint (outcome given by the oracle, call recorded);
on success subtracts the 60-second buffer from the token lifetime and
sets the connection expiry 364 days ahead; any axios error yields the
exchange-failed message. -/
def exchangeCodeForTokens (outcome : TokenEndpointOutcome) (now : Int)
    (provider : Provider) (code : String)
    (credentials : GetOAuthCredentialsResponse) :
    ExchangeResult × List ProviderCall :=
  match credentials with
  | .error e => (.error e, [])
  | .ok client_id client_secret _ _ _ =>
    match provider with
    | .jira =>
      let call := ProviderCall.authorizationCodeGrant code client_id client_secret
      match outcome with
      | .err _ =>
        (.error "Failed to exchange authorization code for tokens", [call])
      | .ok access_token refresh_token expires_in =>
        (.ok access_token refresh_token (expires_in - 60)
          (now + 364 * 24 * 60 * 60 * 1000), [call])

/-- `storeAccessToken`: `redis.set(accessToken, '1', {ex: expiresIn})` —
the marker is keyed by the raw access-token string in the prefixless
namespace. -/
def storeAccessToken (w : World) (accessToken : String) (expiresIn : Int) :
    World :=
  { w with cache := w.cache.setRoot w.now accessToken (.marker "1") expiresIn }

/-- The controller-local `createConnection`: OSS mode looks the identity
up and updates the existing connection when the lookup is truthy,
otherwise inserts a new one under a fresh UUID (the explicit `newUuid`
argument); cloud mode does the same through the collaborator. -/
def createConnection (env : Env) (ccm : CloudContextManager) (w : World)
    (newUuid : String) (provider : Provider) (external_id : Option String)
    (refreshToken : String) (connectionExpiryDate : Int)
    (juncture_project_id : Option String) : CreateConnectionResult × World :=
  if ¬env.cloudMode then
    let (connectionIdLookup, w1) := getConnectionID w external_id provider
    match connectionIdLookup with
    | some connection_id =>
      if connection_id = "" then
        match addConnectionToDB w1 newUuid external_id refreshToken
            connectionExpiryDate provider none with
        | (false, w2) => (.error "Failed to create connection. Please try again later.", w2)
        | (true, w2) => (.ok newUuid, w2)
      else
        match updateConnectionInDB w1 connection_id refreshToken
            connectionExpiryDate none with
        | (false, w2) => (.error "Failed to update connection. Please try again later.", w2)
        | (true, w2) => (.ok connection_id, w2)
    | none =>
      match addConnectionToDB w1 newUuid external_id refreshToken
          connectionExpiryDate provider none with
      | (false, w2) => (.error "Failed to create connection. Please try again later.", w2)
      | (true, w2) => (.ok newUuid, w2)
  else
    match juncture_project_id with
    | none => (.error "Juncture project ID is required", w)
    | some jpid =>
      if jpid = "" then (.error "Juncture project ID is required", w)
      else
        match ccm.getConnectionID external_id provider jpid with
        | some connection_id =>
          if connection_id = "" then
            if ccm.addConnection newUuid external_id provider jpid refreshToken
                connectionExpiryDate then
              (.ok newUuid, w)
            else
              (.error "Failed to create connection. Please try again later.", w)
          else
            if ccm.updateConnection connection_id refreshToken
                connectionExpiryDate then
              (.ok connection_id, w)
            else
              (.error "Failed to update connection. Please try again later.", w)
        | none =>
          if ccm.addConnection newUuid external_id provider jpid refreshToken
              connectionExpiryDate then
            (.ok newUuid, w)
          else
            (.error "Failed to create connection. Please try again later.", w)

/-- `authorizationCallback` (second revision): validates the provider and
the `code`/`state` query parameters, verifies the state nonce against
the cache, resolves credentials, exchanges the authorization code
(provider call recorded in the trace), creates or updates the
connection, stores the access-token marker, and answers with JSON or a
redirect depending on `site_redirect_uri`. -/
def authorizationCallback (env : Env) (ccm : CloudContextManager)
    (exchangeOutcome : TokenEndpointOutcome) (newUuid : String) (w : World)
    (provider : String) (code : Option String) (state : Option String) :
    ApiResponse × World × List ProviderCall :=
  if ¬(provider = "jira") then
    (.err 400 "Invalid provider. Ensure that all provider names are lowercase.", w, [])
  else
    let codeTruthy : Bool := match code with | some c => c != "" | none => false
    let stateTruthy : Bool := match state with | some s => s != "" | none => false
    if ¬(codeTruthy && stateTruthy) then
      (.err 400 "Invalid request", w, [])
    else
      match verifyAndExtractState w (jsStr state) with
      | .error e => (.err 400 e, w, [])
      | .ok external_id juncture_public_key =>
        match getOAuthCredentials env ccm Provider.jira juncture_public_key with
        | .error e => (.err 400 e, w, [])
        | .ok client_id client_secret scopes site_redirect_uri juncture_project_id =>
          match exchangeCodeForTokens exchangeOutcome w.now Provider.jira
              (jsStr code)
              (.ok client_id client_secret scopes site_redirect_uri
                juncture_project_id) with
          | (.error e, calls) => (.err 400 e, w, calls)
          | (.ok accessToken refreshToken expiresIn connectionExpiryDate, calls) =>
            match createConnection env ccm w newUuid Provider.jira external_id
                refreshToken connectionExpiryDate juncture_project_id with
            | (.error e, w1) => (.err 500 e, w1, calls)
            | (.ok _, w1) =>
              let w2 := storeAccessToken w1 accessToken expiresIn
              if site_redirect_uri = "" then
                (.ok 200, w2, calls)
              else
                (.redirect site_redirect_uri, w2, calls)

end OAuthController


/- ------------------------------------------------------------------
Concrete fixtures used by the closed instance theorems
------------------------------------------------------------------ -/

def noCcm : CloudContextManager :=
  ⟨fun _ _ => none, fun _ _ => none, fun _ _ _ _ _ _ => false, fun _ _ _ => false,
   fun _ _ _ => none, fun _ => none⟩

def ossEnv : Env :=
  ⟨false, some "sk", "client-id", "client-secret", ["read:jira-work"], "",
   "https://redirect"⟩

def c10World : World :=
  { db := { connections := [⟨"c1", "rt", 99999, true, 0, 0⟩]
            externalMap := []
            jiraConnections := [] }
    cache := Cache.live
      { root := []
        accessTokens := [("c1", ⟨"", 5000⟩)]
        connIds := []
        connDetails := []
        connCodes := []
        jiraDetails := [] }
    now := 0 }

def c10HitWorld : World :=
  { db := { connections := [⟨"c1", "rt", 99999, true, 0, 0⟩]
            externalMap := []
            jiraConnections := [] }
    cache := Cache.live
      { root := []
        accessTokens := [("c1", ⟨"tok", 5000⟩)]
        connIds := []
        connDetails := []
        connCodes := []
        jiraDetails := [] }
    now := 0 }

def c1World : World :=
  { db := { connections := [⟨"c1", "rt", -1000, false, -5000, -5000⟩]
            externalMap := []
            jiraConnections := [] }
    cache := Cache.live
      { root := []
        accessTokens := []
        connIds := []
        connDetails := []
        connCodes := []
        jiraDetails := [] }
    now := 0 }

def emptyWorld : World :=
  { db := { connections := [], externalMap := [], jiraConnections := [] }
    cache := Cache.live
      { root := []
        accessTokens := []
        connIds := []
        connDetails := []
        connCodes := []
        jiraDetails := [] }
    now := 0 }

def oneConnWorld : World :=
  { db := { connections := [⟨"c1", "rt", 99999, false, 0, 0⟩]
            externalMap := []
            jiraConnections := [] }
    cache := Cache.live
      { root := []
        accessTokens := []
        connIds := []
        connDetails := []
        connCodes := []
        jiraDetails := [] }
    now := 0 }

def failTx : TxStep := fun _ => .error DbError.other

def stateWorld : World :=
  { db := { connections := [], externalMap := [], jiraConnections := [] }
    cache := Cache.live
      { root := [("state1", ⟨.state ⟨some "e1", none⟩, 600000⟩)]
        accessTokens := []
        connIds := []
        connDetails := []
        connCodes := []
        jiraDetails := [] }
    now := 0 }

def c5Body : ConnectionCodeCacheBody :=
  ⟨"c1", "jira", some "e1", "rt2", 5000, none, false⟩

def c5World : World :=
  { db := { connections := [⟨"c1", "rt", 99999, false, 0, 0⟩]
            externalMap := []
            jiraConnections := [] }
    cache := Cache.live
      { root := []
        accessTokens := []
        connIds := []
        connDetails := []
        connCodes := [(("jira", "code1"), ⟨c5Body, 600000⟩)]
        jiraDetails := [] }
    now := 0 }


/- ------------------------------------------------------------------
Lemmas and theorems
------------------------------------------------------------------ -/

theorem addConnectionTxBody_err (db : Db) (r : ConnectionRow)
    (ext : Option String) (p : Provider) (cid : String) (f : TxStep)
    (hf : ∀ d, ∃ e, f d = .error e) :
    ∃ e, addConnectionTxBody db r ext p cid (some f) = .error e := by
  unfold addConnectionTxBody
  cases hi : insertConnection db r with
  | error e => exact ⟨e, by simp [hi, Bind.bind, Except.bind]⟩
  | ok db1 =>
    cases hm : insertExternalMap db1 ext p cid with
    | error e => exact ⟨e, by simp [hi, hm, Bind.bind, Except.bind]⟩
    | ok db2 =>
      obtain ⟨e, hfe⟩ := hf db2
      exact ⟨e, by simp [hi, hm, hfe, Bind.bind, Except.bind]⟩

theorem insertConnection_ok_shape (db : Db) (r : ConnectionRow) (db1 : Db)
    (h : insertConnection db r = .ok db1) :
    db1.externalMap = db.externalMap ∧ db1.connections = db.connections ++ [r] := by
  unfold insertConnection at h
  split at h
  · cases h
  · cases h; exact ⟨rfl, rfl⟩

theorem insertExternalMap_ok_shape (db : Db) (e : String) (p : Provider)
    (cid : String) (db2 : Db)
    (h : insertExternalMap db (some e) p cid = .ok db2) :
    db2.externalMap = db.externalMap ++ [⟨e, p, cid⟩] ∧
    ∀ row ∈ db.externalMap, ¬(row.externalId = e ∧ row.provider = p) := by
  replace h : (if db.externalMap.any (fun r => r.externalId = e ∧ r.provider = p) then
      (Except.error DbError.uniqueViolation : Except DbError Db)
    else if db.connections.any (fun c => c.connectionId = cid) then
      Except.ok { db with externalMap := db.externalMap ++ [⟨e, p, cid⟩] }
    else Except.error DbError.fkViolation) = .ok db2 := h
  by_cases hdup : (db.externalMap.any
      (fun r => decide (r.externalId = e ∧ r.provider = p))) = true
  · rw [if_pos hdup] at h
    cases h
  · rw [if_neg hdup] at h
    by_cases hfk : (db.connections.any (fun c => decide (c.connectionId = cid))) = true
    · rw [if_pos hfk] at h
      cases h
      refine ⟨rfl, ?_⟩
      intro row hrow hcon
      refine hdup ?_
      simp only [List.any_eq_true, decide_eq_true_eq]
      exact ⟨row, hrow, hcon.1, trivial⟩
    · rw [if_neg hfk] at h
      cases h

theorem addConnectionTxBody_ok_shape (db : Db) (r : ConnectionRow)
    (e : String) (p : Provider) (cid : String) (ext2 : Option TxStep) (db3 : Db)
    (hok : addConnectionTxBody db r (some e) p cid ext2 = .ok db3)
    (hframe : ∀ f d d', ext2 = some f → f d = .ok d' → d'.externalMap = d.externalMap) :
    db3.externalMap = db.externalMap ++ [⟨e, p, cid⟩] ∧
    ∀ row ∈ db.externalMap, ¬(row.externalId = e ∧ row.provider = p) := by
  unfold addConnectionTxBody at hok
  cases hi : insertConnection db r with
  | error e2 => rw [hi] at hok; simp [Bind.bind, Except.bind] at hok
  | ok db1 =>
    rw [hi] at hok
    cases hm : insertExternalMap db1 (some e) p cid with
    | error e2 => simp [hm, Bind.bind, Except.bind] at hok
    | ok db2 =>
      simp only [hm, Bind.bind, Except.bind] at hok
      obtain ⟨hce, _⟩ := insertConnection_ok_shape db r db1 hi
      obtain ⟨hm1, hm2⟩ := insertExternalMap_ok_shape db1 e p cid db2 hm
      have hmap3 : db3.externalMap = db2.externalMap := by
        cases ext2 with
        | none => simp only [pure, Except.pure] at hok; cases hok; rfl
        | some f => exact hframe f db2 db3 rfl hok
      rw [hmap3, hm1, hce]
      exact ⟨rfl, fun row hrow => hm2 row (by rw [hce]; exact hrow)⟩

theorem getConnId_setConnId_same (c : Cache) (now : Int) (k : Provider × String)
    (v : String) (hc : c ≠ Cache.down) :
    (c.setConnId now k v CACHE_EXPIRY).getConnId now k = some v := by
  cases c with
  | down => exact absurd rfl hc
  | live s =>
    simp [Cache.setConnId, Cache.getConnId, entrySet, entryGet, assocSet,
      assocFind, CACHE_EXPIRY]

theorem getConnId_setConnDetails_frame (c : Cache) (now now2 : Int) (k2 : String)
    (v2 : ConnectionRow) (ex : Int) (k : Provider × String) :
    ((c.setConnDetails now2 k2 v2 ex).getConnId now k) = c.getConnId now k := by
  cases c <;> simp [Cache.setConnDetails, Cache.getConnId]

theorem getConnectionDetails_frame (w : World) (connection_id : String) :
    (getConnectionDetails w connection_id).snd.db = w.db ∧
    (getConnectionDetails w connection_id).snd.now = w.now := by
  simp only [getConnectionDetails]
  split
  · exact ⟨rfl, rfl⟩
  · split
    · exact ⟨rfl, rfl⟩
    · exact ⟨rfl, rfl⟩

theorem updateConnectionInvalidFlag_db (w : World) (connection_id : String)
    (b : Bool) :
    (updateConnectionInvalidFlag w connection_id b).snd.db.connections =
      w.db.connections.map (fun c => if c.connectionId = connection_id then
        { c with invalidRefreshToken := b, lastUpdated := w.now } else c) := by
  simp only [updateConnectionInvalidFlag]
  split <;> rfl

theorem updateConnectionInDB_noext (w : World) (connection_id rt : String)
    (exp : Int) :
    (updateConnectionInDB w connection_id rt exp none).fst = true ∧
    (updateConnectionInDB w connection_id rt exp none).snd.db.connections =
      w.db.connections.map (fun c => if c.connectionId = connection_id then
        { c with refreshToken := rt, expiresAt := exp, lastUpdated := w.now }
        else c) := by
  simp only [updateConnectionInDB, pure, Except.pure]
  split <;> exact ⟨rfl, rfl⟩

theorem getRootEntry_setConnId (c : Cache) (now : Int) (k : Provider × String)
    (v : String) (ex : Int) (k2 : String) :
    (c.setConnId now k v ex).getRootEntry k2 = c.getRootEntry k2 := by
  cases c <;> simp [Cache.setConnId, Cache.getRootEntry]

theorem getRootEntry_setConnDetails (c : Cache) (now : Int) (k : String)
    (v : ConnectionRow) (ex : Int) (k2 : String) :
    (c.setConnDetails now k v ex).getRootEntry k2 = c.getRootEntry k2 := by
  cases c <;> simp [Cache.setConnDetails, Cache.getRootEntry]

theorem getRootEntry_setAccessToken (c : Cache) (now : Int) (k : String)
    (v : String) (ex : Int) (k2 : String) :
    (c.setAccessToken now k v ex).getRootEntry k2 = c.getRootEntry k2 := by
  cases c <;> simp [Cache.setAccessToken, Cache.getRootEntry]

theorem assocFind_filter_ne {κ α : Type} [DecidableEq κ] (l : List (κ × α))
    (k k2 : κ) (h : ¬(k = k2)) :
    assocFind (l.filter (fun p => ¬(p.fst = k))) k2 = assocFind l k2 := by
  induction l with
  | nil => rfl
  | cons p rest ih =>
    by_cases hp : p.fst = k
    · rw [List.filter_cons_of_neg (by simpa using hp)]
      rw [ih]
      have hp2 : ¬(p.fst = k2) := by rw [hp]; exact h
      simp only [assocFind]
      rw [if_neg hp2]
    · rw [List.filter_cons_of_pos (by simpa using hp)]
      simp only [assocFind]
      by_cases hk2 : p.fst = k2
      · rw [if_pos hk2, if_pos hk2]
      · rw [if_neg hk2, if_neg hk2, ih]

theorem assocFind_assocSet_ne {κ α : Type} [DecidableEq κ] (l : List (κ × α))
    (k k2 : κ) (v : α) (h : ¬(k = k2)) :
    assocFind (assocSet l k v) k2 = assocFind l k2 := by
  simp only [assocSet, assocFind]
  rw [if_neg h]
  exact assocFind_filter_ne l k k2 h

theorem getRootEntry_setRoot_ne (c : Cache) (now : Int) (k : String)
    (v : RootVal) (ex : Int) (k2 : String) (h : ¬(k = k2)) :
    (c.setRoot now k v ex).getRootEntry k2 = c.getRootEntry k2 := by
  cases c with
  | down => rfl
  | live s =>
    simp only [Cache.setRoot, Cache.getRootEntry, entrySet]
    exact assocFind_assocSet_ne s.root k k2 _ h

theorem getRoot_of_entry (cc : Cache) (now : Int) (k : String)
    (ent : Entry RootVal) (h : cc.getRootEntry k = some ent)
    (hlt : now < ent.expiresAt) : cc.getRoot now k = some ent.val := by
  cases cc with
  | down => cases h
  | live s =>
    simp only [Cache.getRootEntry] at h
    simp only [Cache.getRoot, entryGet, h]
    rw [if_pos hlt]

theorem getConnectionID_root (w : World) (e : Option String) (p : Provider)
    (k : String) :
    ((getConnectionID w e p).snd.cache.getRootEntry k = w.cache.getRootEntry k) ∧
    ((getConnectionID w e p).snd.now = w.now) := by
  simp only [getConnectionID]
  split
  · split
    · split
      · exact ⟨rfl, rfl⟩
      · exact ⟨getRootEntry_setConnId _ _ _ _ _ _, rfl⟩
    · exact ⟨rfl, rfl⟩
  · split
    · exact ⟨rfl, rfl⟩
    · exact ⟨getRootEntry_setConnId _ _ _ _ _ _, rfl⟩

theorem updateConnectionInDB_root (w : World) (cid rt : String) (exp : Int)
    (ext2 : Option TxStep) (k : String) :
    ((updateConnectionInDB w cid rt exp ext2).snd.cache.getRootEntry k =
      w.cache.getRootEntry k) ∧
    ((updateConnectionInDB w cid rt exp ext2).snd.now = w.now) := by
  simp only [updateConnectionInDB]
  split
  · exact ⟨rfl, rfl⟩
  · split
    · exact ⟨getRootEntry_setConnDetails _ _ _ _ _ _, rfl⟩
    · exact ⟨rfl, rfl⟩

theorem addConnectionToDB_root (w : World) (cid : String) (e : Option String)
    (rt : String) (exp : Int) (p : Provider) (ext2 : Option TxStep)
    (k : String) :
    ((addConnectionToDB w cid e rt exp p ext2).snd.cache.getRootEntry k =
      w.cache.getRootEntry k) ∧
    ((addConnectionToDB w cid e rt exp p ext2).snd.now = w.now) := by
  simp only [addConnectionToDB]
  split
  · exact ⟨rfl, rfl⟩
  · refine ⟨?_, rfl⟩
    rw [getRootEntry_setConnDetails, getRootEntry_setConnId]

theorem controllerCreateConnection_root (env : Env) (ccm : CloudContextManager)
    (w : World) (newUuid : String) (p : Provider) (ext : Option String)
    (rt : String) (exp : Int) (jpid : Option String) (k : String) :
    ((OAuthController.createConnection env ccm w newUuid p ext rt exp
        jpid).snd.cache.getRootEntry k = w.cache.getRootEntry k) ∧
    ((OAuthController.createConnection env ccm w newUuid p ext rt exp
        jpid).snd.now = w.now) := by
  simp only [OAuthController.createConnection]
  split
  · obtain ⟨hid1, hid2⟩ := getConnectionID_root w ext p k
    split
    · split
      · obtain ⟨ha1, ha2⟩ := addConnectionToDB_root (getConnectionID w ext p).snd
          newUuid ext rt exp p none k
        split
        · rename_i heq
          rw [heq] at ha1 ha2
          exact ⟨ha1.trans hid1, ha2.trans hid2⟩
        · rename_i heq
          rw [heq] at ha1 ha2
          exact ⟨ha1.trans hid1, ha2.trans hid2⟩
      · obtain ⟨hu1, hu2⟩ := updateConnectionInDB_root
          (getConnectionID w ext p).snd _ rt exp none k
        split
        · rename_i heq
          rw [heq] at hu1 hu2
          exact ⟨hu1.trans hid1, hu2.trans hid2⟩
        · rename_i heq
          rw [heq] at hu1 hu2
          exact ⟨hu1.trans hid1, hu2.trans hid2⟩
    · obtain ⟨ha1, ha2⟩ := addConnectionToDB_root (getConnectionID w ext p).snd
        newUuid ext rt exp p none k
      split
      · rename_i heq
        rw [heq] at ha1 ha2
        exact ⟨ha1.trans hid1, ha2.trans hid2⟩
      · rename_i heq
        rw [heq] at ha1 ha2
        exact ⟨ha1.trans hid1, ha2.trans hid2⟩
  · split
    · exact ⟨rfl, rfl⟩
    · split
      · exact ⟨rfl, rfl⟩
      · split
        · split
          · split
            · exact ⟨rfl, rfl⟩
            · exact ⟨rfl, rfl⟩
          · split
            · exact ⟨rfl, rfl⟩
            · exact ⟨rfl, rfl⟩
        · split
          · exact ⟨rfl, rfl⟩
          · exact ⟨rfl, rfl⟩

theorem assocFind_assocDel_same {κ α : Type} [DecidableEq κ]
    (l : List (κ × α)) (k : κ) : assocFind (assocDel l k) k = none := by
  induction l with
  | nil => rfl
  | cons p rest ih =>
    by_cases hp : p.fst = k
    · simp only [assocDel] at ih ⊢
      rw [List.filter_cons_of_neg (by simpa using hp)]
      exact ih
    · simp only [assocDel] at ih ⊢
      rw [List.filter_cons_of_pos (by simpa using hp)]
      simp only [assocFind]
      rw [if_neg hp]
      exact ih

theorem getConnCode_delConnCode_same (c : Cache) (now : Int)
    (k : String × String) : (c.delConnCode k).getConnCode now k = none := by
  cases c with
  | down => rfl
  | live s =>
    simp only [Cache.delConnCode, Cache.getConnCode, entryGet]
    rw [assocFind_assocDel_same]

theorem getConnCode_setJiraDetails (c : Cache) (now : Int) (k : String)
    (v : JiraDetailsVal) (ex : Int) (now2 : Int) (k2 : String × String) :
    (c.setJiraDetails now k v ex).getConnCode now2 k2 = c.getConnCode now2 k2 := by
  cases c <;> simp [Cache.setJiraDetails, Cache.getConnCode]

theorem getConnCode_setConnDetails (c : Cache) (now : Int) (k : String)
    (v : ConnectionRow) (ex : Int) (now2 : Int) (k2 : String × String) :
    (c.setConnDetails now k v ex).getConnCode now2 k2 = c.getConnCode now2 k2 := by
  cases c <;> simp [Cache.setConnDetails, Cache.getConnCode]

theorem getConnCode_setConnId (c : Cache) (now : Int) (k : Provider × String)
    (v : String) (ex : Int) (now2 : Int) (k2 : String × String) :
    (c.setConnId now k v ex).getConnCode now2 k2 = c.getConnCode now2 k2 := by
  cases c <;> simp [Cache.setConnId, Cache.getConnCode]

theorem getJiraConnectionDetails_frame (w : World) (cid : String)
    (now2 : Int) (k2 : String × String) :
    ((getJiraConnectionDetails w cid).snd.cache.getConnCode now2 k2 =
      w.cache.getConnCode now2 k2) ∧
    ((getJiraConnectionDetails w cid).snd.now = w.now) ∧
    ((getJiraConnectionDetails w cid).snd.db = w.db) := by
  simp only [getJiraConnectionDetails]
  split
  · exact ⟨rfl, rfl, rfl⟩
  · split
    · exact ⟨rfl, rfl, rfl⟩
    · exact ⟨getConnCode_setJiraDetails _ _ _ _ _ _ _, rfl, rfl⟩

theorem updateConnectionInDB_connCode (w : World) (cid rt : String) (exp : Int)
    (ext2 : Option TxStep) (now2 : Int) (k2 : String × String) :
    ((updateConnectionInDB w cid rt exp ext2).snd.cache.getConnCode now2 k2 =
      w.cache.getConnCode now2 k2) ∧
    ((updateConnectionInDB w cid rt exp ext2).snd.now = w.now) := by
  simp only [updateConnectionInDB]
  split
  · exact ⟨rfl, rfl⟩
  · split
    · exact ⟨getConnCode_setConnDetails _ _ _ _ _ _ _, rfl⟩
    · exact ⟨rfl, rfl⟩

theorem addConnectionToDB_connCode (w : World) (cid : String)
    (e : Option String) (rt : String) (exp : Int) (p : Provider)
    (ext2 : Option TxStep) (now2 : Int) (k2 : String × String) :
    ((addConnectionToDB w cid e rt exp p ext2).snd.cache.getConnCode now2 k2 =
      w.cache.getConnCode now2 k2) ∧
    ((addConnectionToDB w cid e rt exp p ext2).snd.now = w.now) := by
  simp only [addConnectionToDB]
  split
  · exact ⟨rfl, rfl⟩
  · refine ⟨?_, rfl⟩
    rw [getConnCode_setConnDetails, getConnCode_setConnId]

theorem integrationCreateConnection_connCode (env : Env)
    (ccm : CloudContextManager) (w : World) (cid : String) (p : Provider)
    (ext : Option String) (rt : String) (exp : Int) (isnew : Bool)
    (jpid : Option String) (ext2 : Option TxStep) (now2 : Int)
    (k2 : String × String) :
    ((IntegrationGeneral.createConnection env ccm w cid p ext rt exp isnew jpid
        ext2).snd.cache.getConnCode now2 k2 = w.cache.getConnCode now2 k2) ∧
    ((IntegrationGeneral.createConnection env ccm w cid p ext rt exp isnew jpid
        ext2).snd.now = w.now) := by
  simp only [IntegrationGeneral.createConnection]
  split
  · split
    · obtain ⟨hu1, hu2⟩ := updateConnectionInDB_connCode w cid rt exp ext2 now2 k2
      split
      · rename_i heq
        rw [heq] at hu1 hu2
        exact ⟨hu1, hu2⟩
      · rename_i heq
        rw [heq] at hu1 hu2
        exact ⟨hu1, hu2⟩
    · obtain ⟨ha1, ha2⟩ := addConnectionToDB_connCode w cid ext rt exp p ext2 now2 k2
      split
      · rename_i heq
        rw [heq] at ha1 ha2
        exact ⟨ha1, ha2⟩
      · rename_i heq
        rw [heq] at ha1 ha2
        exact ⟨ha1, ha2⟩
  · split
    · exact ⟨rfl, rfl⟩
    · split
      · exact ⟨rfl, rfl⟩
      · split
        · split
          · exact ⟨rfl, rfl⟩
          · exact ⟨rfl, rfl⟩
        · split
          · exact ⟨rfl, rfl⟩
          · exact ⟨rfl, rfl⟩

theorem verifySecretKey_valid_iff (env : Env) (ccm : CloudContextManager)
    (authHeader : Option String) :
    (verifySecretKey env ccm authHeader).isValid = true ↔
      (∃ hdr, authHeader = some hdr ∧ hdr ≠ "" ∧
        jsStartsWith "Bearer " hdr = true ∧
        2 ≤ (jsSplit ' ' hdr).length ∧
        jsTrim ((jsSplit ' ' hdr).getD 1 "") ≠ "" ∧
        (if env.cloudMode then
          (ccm.verifySecretKey (jsTrim ((jsSplit ' ' hdr).getD 1 ""))).isSome = true
         else env.junctureSecretKey = some (jsTrim ((jsSplit ' ' hdr).getD 1 "")))) := by
  cases authHeader with
  | none => simp [verifySecretKey]
  | some hdr =>
    simp only [verifySecretKey, Option.some.injEq, List.getD]
    by_cases h1 : hdr = ""
    · simp [h1, VerifySecretKeyResponse.isValid]
    · rw [if_neg h1]
      by_cases h2 : jsStartsWith "Bearer " hdr = true
      · rw [if_neg (by simp [h2])]
        by_cases h3 : (jsSplit ' ' hdr).length < 2
        · rw [if_pos h3]
          constructor
          · intro h; cases h
          · rintro ⟨x, rfl, _, _, hlen, _⟩; omega
        · rw [if_neg h3]
          by_cases h4 : jsTrim (((jsSplit ' ' hdr).get? 1).getD "") = ""
          · rw [if_pos h4]
            constructor
            · intro h; cases h
            · rintro ⟨x, rfl, _, _, _, h5, _⟩; exact absurd h4 h5
          · rw [if_neg h4]
            by_cases h5 : env.cloudMode = true
            · rw [if_neg (by simp [h5])]
              cases hc : ccm.verifySecretKey
                  (jsTrim (((jsSplit ' ' hdr).get? 1).getD "")) with
              | none =>
                simp only [hc]
                constructor
                · intro h; cases h
                · rintro ⟨x, hx, _, _, _, _, h6⟩
                  cases hx
                  rw [if_pos h5] at h6
                  rw [hc] at h6
                  cases h6
              | some pid =>
                simp only [hc]
                constructor
                · intro _
                  exact ⟨hdr, rfl, h1, h2, by omega, h4,
                    by rw [if_pos h5, hc]; rfl⟩
                · intro _; trivial
            · rw [if_pos (by simpa using h5)]
              by_cases h6 : some (jsTrim (((jsSplit ' ' hdr).get? 1).getD "")) =
                  env.junctureSecretKey
              · rw [if_neg (fun hcon => hcon h6)]
                constructor
                · intro _
                  refine ⟨hdr, rfl, h1, h2, by omega, h4, ?_⟩
                  rw [if_neg h5]
                  exact h6.symm
                · intro _; trivial
              · rw [if_pos h6]
                constructor
                · intro h; cases h
                · rintro ⟨x, hx, _, _, _, _, h7⟩
                  cases hx
                  rw [if_neg h5] at h7
                  exact absurd h7.symm h6
      · rw [if_pos (by simpa using h2)]
        constructor
        · intro h; cases h
        · rintro ⟨x, hx, _, h2x, _⟩
          cases hx
          exact absurd h2x h2

theorem updateConnectionInDB_zero_rows (env : Env) (ccm : CloudContextManager)
    (w : World) (connection_id refresh_token : String) (expires_at : Int)
    (external_id juncture_project_id : Option String)
    (henv : env.cloudMode = false)
    (hno : ∀ c ∈ w.db.connections, c.connectionId ≠ connection_id) :
    updateConnectionInDB w connection_id refresh_token expires_at none = (true, w) ∧
    IntegrationGeneral.createConnection env ccm w connection_id Provider.jira
      external_id refresh_token expires_at false juncture_project_id none =
      (.ok connection_id, w) := by
  have hfilter : w.db.connections.filter
      (fun c => c.connectionId = connection_id) = [] := by
    rw [List.filter_eq_nil_iff]
    intro c hc
    simpa using hno c hc
  have hmap : w.db.connections.map
      (fun c => if c.connectionId = connection_id then
          { c with
            refreshToken := refresh_token
            expiresAt := expires_at
            lastUpdated := w.now }
        else c) = w.db.connections := by
    conv_rhs => rw [← List.map_id w.db.connections]
    apply List.map_congr_left
    intro c hc
    simp [hno c hc]
  have h1 : updateConnectionInDB w connection_id refresh_token expires_at none
      = (true, w) := by
    simp only [updateConnectionInDB, hfilter, hmap, List.map_nil]
    rfl
  refine ⟨h1, ?_⟩
  simp only [IntegrationGeneral.createConnection, henv]
  simp [h1]

theorem addConnectionToDB_atomic (w : World) (connection_id : String)
    (external_id : Option String) (refresh_token : String) (expires_at : Int)
    (provider : Provider) (f : TxStep)
    (hf : ∀ d, ∃ e, f d = .error e) :
    addConnectionToDB w connection_id external_id refresh_token expires_at
      provider (some f) = (false, w) ∧
    (∀ ext2,
      (addConnectionToDB w connection_id external_id refresh_token expires_at
        provider ext2).fst = false →
      (addConnectionToDB w connection_id external_id refresh_token expires_at
        provider ext2).snd = w) := by
  constructor
  · obtain ⟨e, he⟩ := addConnectionTxBody_err w.db
      { connectionId := connection_id
        refreshToken := refresh_token
        expiresAt := expires_at
        invalidRefreshToken := false
        createdAt := w.now
        lastUpdated := w.now } external_id provider connection_id f hf
    simp only [addConnectionToDB, he]
  · intro ext2
    simp only [addConnectionToDB]
    split
    · intro _; rfl
    · intro hcon; cases hcon

theorem commit_then_lookup (w : World) (connection_id e refresh_token : String)
    (expires_at : Int) (p : Provider) (ext2 : Option TxStep) (w' : World)
    (hframe : ∀ f d d', ext2 = some f → f d = .ok d' →
      d'.externalMap = d.externalMap)
    (hadd : addConnectionToDB w connection_id (some e) refresh_token expires_at
      p ext2 = (true, w')) :
    (getConnectionID w' (some e) p).fst = some connection_id ∧
    (getConnectionID { w' with cache := Cache.down } (some e) p).fst =
      some connection_id := by
  simp only [addConnectionToDB] at hadd
  cases htx : addConnectionTxBody w.db
      { connectionId := connection_id
        refreshToken := refresh_token
        expiresAt := expires_at
        invalidRefreshToken := false
        createdAt := w.now
        lastUpdated := w.now } (some e) p connection_id ext2 with
  | error e2 =>
    rw [htx] at hadd
    cases hadd
  | ok db3 =>
    rw [htx] at hadd
    obtain ⟨hshape, hnodup⟩ :=
      addConnectionTxBody_ok_shape w.db _ e p connection_id ext2 db3 htx hframe
    injection hadd with h1 h2
    subst h2
    have hfind : db3.externalMap.find? (fun r => e == r.externalId) =
        some ⟨e, p, connection_id⟩ := by
      rw [hshape, List.find?_append]
      have hnone : w.db.externalMap.find? (fun r => e == r.externalId) = none := by
        rw [List.find?_eq_none]
        intro r hr
        have hn := hnodup r hr
        simp only [beq_iff_eq]
        intro he
        exact hn ⟨he.symm, rfl⟩
      rw [hnone]
      simp [List.find?]
    constructor
    · simp only [getConnectionID, jsStr]
      rw [getConnId_setConnDetails_frame]
      cases hcache : w.cache with
      | down =>
        simp only [Cache.setConnId, Cache.getConnId]
        simp [hfind]
      | live s =>
        rw [getConnId_setConnId_same (Cache.live s) w.now (p, e)
          connection_id (by simp)]
        by_cases hcid : connection_id = ""
        · simp [hcid, hfind]
        · simp [hcid]
    · simp only [getConnectionID, jsStr, Cache.getConnId]
      simp [hfind]

theorem getAccessTokenHelper_cache_hit (env : Env) (ccm : CloudContextManager)
    (o : TokenEndpointOutcome) (w : World) (connectionId : String)
    (provider : Provider) (projectId : Option String) (ent : Entry String)
    (hent : w.cache.getAccessTokenEntry w.now connectionId = some ent)
    (hne : ent.val ≠ "") :
    getAccessTokenHelper env ccm o w connectionId provider projectId =
      (.ok ent.val ((ent.expiresAt - w.now) / 1000), w, []) := by
  simp only [getAccessTokenHelper, getAccessTokenFromRedis, hent]
  rw [if_neg hne]

theorem c10_counterexample :
    (c10World.cache.getAccessTokenEntry c10World.now "c1").isSome = true ∧
    (getAccessTokenHelper ossEnv noCcm (.err none) c10World "c1" Provider.jira
      none).fst =
      .error "Connection is invalid or expired. Please reauthorize the connection." := by
  constructor
  · decide
  · decide

theorem getAccessTokenHelper_cache_hit_witness :
    getAccessTokenHelper ossEnv noCcm (.err none) c10HitWorld "c1"
      Provider.jira none =
      (.ok "tok" (((5000 : Int) - 0) / 1000), c10HitWorld, []) :=
  getAccessTokenHelper_cache_hit ossEnv noCcm (.err none) c10HitWorld "c1"
    Provider.jira none ⟨"tok", 5000⟩ (by decide) (by decide)

theorem c2_refresh_marks_invalid_iff (env : Env) (ccm : CloudContextManager)
    (o : TokenEndpointOutcome) (w : World) (connectionId : String)
    (projectId : Option String) (row : ConnectionRow) (w1 : World)
    (hdet : getConnectionDetails w connectionId = (some row, w1))
    (hflag : row.invalidRefreshToken = false)
    (hexp : ¬(row.expiresAt < w.now))
    (henv : env.cloudMode = false)
    (hpj : projectId = none) :
    ((getNewAccessTokenFromConnection env ccm o w connectionId Provider.jira
        projectId).snd.snd =
      [ProviderCall.refreshTokenGrant row.refreshToken env.defaultJiraClientId
        env.defaultJiraClientSecret]) ∧
    (∀ e, o = .err e → isInvalidGrantShape e = true →
      (getNewAccessTokenFromConnection env ccm o w connectionId Provider.jira
        projectId).fst =
        .error "Connection is invalid. The refresh token is no longer valid. Please reauthorize the connection." ∧
      (getNewAccessTokenFromConnection env ccm o w connectionId Provider.jira
        projectId).snd.fst.db.connections =
        w.db.connections.map (fun c => if c.connectionId = connectionId then
          { c with invalidRefreshToken := true, lastUpdated := w.now } else c)) ∧
    (∀ e, o = .err e → isInvalidGrantShape e = false →
      (getNewAccessTokenFromConnection env ccm o w connectionId Provider.jira
        projectId).fst = .error "Failed to refresh access token" ∧
      (getNewAccessTokenFromConnection env ccm o w connectionId Provider.jira
        projectId).snd.fst.db = w.db) ∧
    (∀ a r ei, o = .ok a r ei →
      ((getNewAccessTokenFromConnection env ccm o w connectionId Provider.jira
          projectId).snd.fst.db.connections.map
        (fun c => (c.connectionId, c.invalidRefreshToken))) =
        w.db.connections.map (fun c => (c.connectionId, c.invalidRefreshToken))) := by
  obtain ⟨hdb1, hnow1⟩ := getConnectionDetails_frame w connectionId
  rw [hdet] at hdb1 hnow1
  simp only [getNewAccessTokenFromConnection, hdet, hpj]
  rw [if_neg (by simp [hflag, hexp])]
  simp only [getOAuthCredentials, henv]
  rw [if_neg (by simp [henv])]
  cases o with
  | err e =>
    simp only []
    by_cases hshape : isInvalidGrantShape e = true
    · rw [if_pos hshape]
      refine ⟨rfl, ?_, ?_, ?_⟩
      · intro e2 he2 _
        refine ⟨rfl, ?_⟩
        rw [updateConnectionInvalidFlag_db w1 connectionId true, hdb1, hnow1]
      · intro e2 he2 hne
        cases he2
        rw [hshape] at hne
        cases hne
      · intro a r ei hcon
        cases hcon
    · rw [if_neg hshape]
      refine ⟨rfl, ?_, ?_, ?_⟩
      · intro e2 he2 hsh
        cases he2
        exact absurd hsh hshape
      · intro e2 he2 _
        exact ⟨rfl, hdb1⟩
      · intro a r ei hcon
        cases hcon
  | ok a r ei =>
    simp only []
    refine ⟨by trivial, ?_, ?_, ?_⟩
    · intro e2 hcon
      cases hcon
    · intro e2 hcon
      cases hcon
    · intro a2 r2 ei2 heq
      have hupd := (updateConnectionInDB_noext
        (storeAccessTokenInRedis w1 a (ei - 300) connectionId) connectionId r
        (row.expiresAt + (ei - 300) * 1000)).2
      rw [hupd, List.map_map]
      simp only [storeAccessTokenInRedis]
      rw [hdb1]
      apply List.map_congr_left
      intro c _
      by_cases hcc : c.connectionId = connectionId
      · simp [Function.comp, hcc]
      · simp [Function.comp, hcc]

theorem c1_counterexample :
    ((c1World.db.connections.map
      (fun c => (c.invalidRefreshToken, decide (c.expiresAt < c1World.now)))) =
      [(false, true)]) ∧
    (getAccessTokenHelper ossEnv noCcm (.ok "new-at" "new-rt" 4000) c1World "c1"
      Provider.jira none).fst =
      .error "Connection is invalid or expired. Please reauthorize the connection." ∧
    (getAccessTokenHelper ossEnv noCcm (.ok "new-at" "new-rt" 4000) c1World "c1"
      Provider.jira none).snd.snd = [] := by
  exact ⟨by decide, by decide, by decide⟩

theorem c1_amended (env : Env) (ccm : CloudContextManager) (w : World)
    (connectionId : String) (projectId : Option String) (row : ConnectionRow)
    (w1 : World) (a r : String) (ei : Int)
    (hmiss : getAccessTokenFromRedis w connectionId =
      .error "Access token not found in Redis")
    (hdet : getConnectionDetails w connectionId = (some row, w1))
    (hflag : row.invalidRefreshToken = false)
    (hexp : ¬(row.expiresAt < w.now))
    (henv : env.cloudMode = false)
    (hpj : projectId = none)
    (hei : 300 < ei) :
    (getAccessTokenHelper env ccm (.ok a r ei) w connectionId Provider.jira
      projectId).fst = .ok a (ei - 300) ∧
    (getAccessTokenHelper env ccm (.ok a r ei) w connectionId Provider.jira
      projectId).snd.fst.db.connections =
      w.db.connections.map (fun c => if c.connectionId = connectionId then
        { c with
          refreshToken := r
          expiresAt := row.expiresAt + (ei - 300) * 1000
          lastUpdated := w.now }
        else c) ∧
    row.expiresAt < row.expiresAt + (ei - 300) * 1000 ∧
    (getAccessTokenHelper env ccm (.ok a r ei) w connectionId Provider.jira
      projectId).snd.snd =
      [ProviderCall.refreshTokenGrant row.refreshToken env.defaultJiraClientId
        env.defaultJiraClientSecret] := by
  obtain ⟨hdb1, hnow1⟩ := getConnectionDetails_frame w connectionId
  rw [hdet] at hdb1 hnow1
  simp only [getAccessTokenHelper, hmiss]
  simp only [getNewAccessTokenFromConnection, hdet, hpj]
  rw [if_neg (by simp [hflag, hexp])]
  simp only [getOAuthCredentials, henv]
  rw [if_neg (by simp [henv])]
  simp only []
  refine ⟨by trivial, ?_, by omega, by trivial⟩
  have hupd := (updateConnectionInDB_noext
    (storeAccessTokenInRedis w1 a (ei - 300) connectionId) connectionId r
    (row.expiresAt + (ei - 300) * 1000)).2
  rw [hupd]
  simp only [storeAccessTokenInRedis]
  rw [hdb1]
  rw [hnow1]

theorem c6_absent_state (env : Env) (ccm : CloudContextManager)
    (o : TokenEndpointOutcome) (newUuid : String) (w : World) (c s : String)
    (hc : c ≠ "") (hs : s ≠ "")
    (hmiss : w.cache.getRoot w.now s = none) :
    OAuthController.authorizationCallback env ccm o newUuid w "jira" (some c)
      (some s) =
      (.err 400 "Invalid state or expired state. Please try again.", w, []) := by
  simp only [OAuthController.authorizationCallback]
  rw [if_neg (by simp)]
  rw [if_neg (by simp [hc, hs])]
  have hver : OAuthController.verifyAndExtractState w (jsStr (some s)) =
      .error "Invalid state or expired state. Please try again." := by
    simp only [OAuthController.verifyAndExtractState, jsStr, hmiss]
  rw [hver]

theorem c7_state_survives (env : Env) (ccm : CloudContextManager)
    (newUuid : String) (w : World) (c s a r : String) (ei : Int)
    (body : OAuthStateBody) (texp : Int)
    (hc : c ≠ "") (hs : s ≠ "")
    (hentry : w.cache.getRootEntry s = some ⟨.state body, texp⟩)
    (hlive : w.now < texp)
    (henv : env.cloudMode = false)
    (hne : ¬(a = s)) :
    ((OAuthController.authorizationCallback env ccm (.ok a r ei) newUuid w
        "jira" (some c) (some s)).snd.fst.cache.getRootEntry s =
      some ⟨.state body, texp⟩) ∧
    (∀ now2, now2 < texp →
      OAuthController.verifyAndExtractState
        { (OAuthController.authorizationCallback env ccm (.ok a r ei) newUuid w
            "jira" (some c) (some s)).snd.fst with now := now2 } s =
        .ok body.external_id body.juncture_public_key) := by
  have hroot : w.cache.getRoot w.now s = some (RootVal.state body) :=
    getRoot_of_entry w.cache w.now s ⟨.state body, texp⟩ hentry hlive
  have hmain : (OAuthController.authorizationCallback env ccm (.ok a r ei)
      newUuid w "jira" (some c) (some s)).snd.fst.cache.getRootEntry s =
      some ⟨.state body, texp⟩ := by
    simp only [OAuthController.authorizationCallback]
    rw [if_neg (by simp)]
    rw [if_neg (by simp [hc, hs])]
    have hver : OAuthController.verifyAndExtractState w (jsStr (some s)) =
        .ok body.external_id body.juncture_public_key := by
      simp only [OAuthController.verifyAndExtractState, jsStr, hroot]
    rw [hver]
    simp only [OAuthController.getOAuthCredentials]
    rw [if_neg (by simp [henv])]
    simp only [OAuthController.exchangeCodeForTokens]
    obtain ⟨hcc1, hcc2⟩ := controllerCreateConnection_root env ccm w newUuid
      Provider.jira body.external_id r (w.now + 364 * 24 * 60 * 60 * 1000) none s
    cases hcc : OAuthController.createConnection env ccm w newUuid Provider.jira
        body.external_id r (w.now + 364 * 24 * 60 * 60 * 1000) none with
    | mk res w1 =>
      rw [hcc] at hcc1 hcc2
      cases res with
      | error e =>
        simp only [hcc]
        exact hcc1.trans hentry
      | ok cid =>
        simp only [hcc, OAuthController.storeAccessToken]
        split
        · rw [getRootEntry_setRoot_ne _ _ _ _ _ _ hne]
          exact hcc1.trans hentry
        · rw [getRootEntry_setRoot_ne _ _ _ _ _ _ hne]
          exact hcc1.trans hentry
  refine ⟨hmain, ?_⟩
  intro now2 hlt
  have hroot2 : (OAuthController.authorizationCallback env ccm (.ok a r ei)
      newUuid w "jira" (some c) (some s)).snd.fst.cache.getRoot now2 s =
      some (RootVal.state body) :=
    getRoot_of_entry _ now2 s ⟨.state body, texp⟩ hmain hlt
  simp only [OAuthController.verifyAndExtractState]
  rw [show ({ (OAuthController.authorizationCallback env ccm (.ok a r ei)
      newUuid w "jira" (some c) (some s)).snd.fst with now := now2 } :
      World).cache.getRoot now2 s = some (RootVal.state body) from hroot2]

theorem updateConnectionInDB_fail_world (w : World) (cid rt : String)
    (exp : Int) (ext2 : Option TxStep) :
    (updateConnectionInDB w cid rt exp ext2).fst = false →
    (updateConnectionInDB w cid rt exp ext2).snd = w := by
  simp only [updateConnectionInDB]
  split
  · intro _; rfl
  · split
    · intro h; cases h
    · intro h; cases h

theorem integrationCreateConnection_upd_cases (env : Env)
    (ccm : CloudContextManager) (w : World) (cid : String) (p : Provider)
    (ext : Option String) (rt : String) (exp : Int) (jpid : Option String)
    (tx : TxStep) (henv : env.cloudMode = false) (m : String) (w2 : World) :
    (IntegrationGeneral.createConnection env ccm w cid p ext rt exp false jpid
      (some tx) = (.error m, w2) →
      m = "Failed to update connection. Please try again later." ∧ w2 = w) := by
  intro hm
  simp only [IntegrationGeneral.createConnection] at hm
  rw [if_pos (by simp [henv])] at hm
  rw [if_pos (by simp)] at hm
  have hfail := updateConnectionInDB_fail_world w cid rt exp (some tx)
  cases hu : updateConnectionInDB w cid rt exp (some tx) with
  | mk b wu =>
    rw [hu] at hm hfail
    cases b with
    | false =>
      injection hm with hm1 hm2
      injection hm1 with hmsg
      exact ⟨hmsg.symm, hm2.symm.trans (hfail rfl)⟩
    | true =>
      injection hm with hm1 _
      cases hm1

theorem c5_code_single_use (env : Env) (ccm : CloudContextManager) (w : World)
    (cc sid : String) (body : ConnectionCodeCacheBody)
    (hccne : cc ≠ "") (hsidne : sid ≠ "")
    (henv : env.cloudMode = false)
    (hcode : getConnectionDetailsFromConnectionCode w "jira" cc = .ok body) :
    ((createJiraConnection env ccm w (some cc) (some sid)).fst = .ok 200 ∨
      (createJiraConnection env ccm w (some cc) (some sid)).fst =
        .err 500 "Failed to update connection. Please try again later.") ∧
    ((createJiraConnection env ccm w (some cc) (some sid)).fst =
        .err 500 "Failed to update connection. Please try again later." →
      getConnectionDetailsFromConnectionCode
        (createJiraConnection env ccm w (some cc) (some sid)).snd "jira" cc =
        .ok body) ∧
    ((createJiraConnection env ccm w (some cc) (some sid)).fst = .ok 200 →
      getConnectionDetailsFromConnectionCode
        (createJiraConnection env ccm w (some cc) (some sid)).snd "jira" cc =
        .error "Connection ID not found: session is either expired or does not exist" ∧
      (createJiraConnection env ccm
        (createJiraConnection env ccm w (some cc) (some sid)).snd
        (some cc) (some sid)).fst =
        .err 400 "Connection ID not found: session is either expired or does not exist") := by
  have hrescode : w.cache.getConnCode w.now ("jira", cc) = some body := by
    simp only [getConnectionDetailsFromConnectionCode] at hcode
    cases hg : w.cache.getConnCode w.now ("jira", cc) with
    | none => rw [hg] at hcode; cases hcode
    | some b => rw [hg] at hcode; cases hcode; rfl
  obtain ⟨hj1, hj2, hj3⟩ := getJiraConnectionDetails_frame w
    body.connection_id w.now ("jira", cc)
  simp only [createJiraConnection]
  rw [if_neg (by simp [hccne, hsidne])]
  rw [hcode]
  simp only []
  cases hjr : (getJiraConnectionDetails w body.connection_id).fst with
  | error msg =>
    simp only []
    cases hcr : IntegrationGeneral.createConnection env ccm
        (getJiraConnectionDetails w body.connection_id).snd body.connection_id
        Provider.jira body.external_id body.refresh_token
        body.connection_expiry_date false body.juncture_project_id
        (some (jiraTransaction body.connection_id sid w.now true)) with
    | mk res w2 =>
      obtain ⟨hic1, hic2⟩ := integrationCreateConnection_connCode env ccm
        (getJiraConnectionDetails w body.connection_id).snd body.connection_id
        Provider.jira body.external_id body.refresh_token
        body.connection_expiry_date false body.juncture_project_id
        (some (jiraTransaction body.connection_id sid w.now true)) w.now
        ("jira", cc)
      rw [hcr] at hic1 hic2
      cases res with
      | error m =>
        obtain ⟨hm1, hm2⟩ := integrationCreateConnection_upd_cases env ccm
          (getJiraConnectionDetails w body.connection_id).snd body.connection_id
          Provider.jira body.external_id body.refresh_token
          body.connection_expiry_date body.juncture_project_id
          (jiraTransaction body.connection_id sid w.now true) henv m w2 hcr
        subst hm1
        refine ⟨Or.inr rfl, ?_, ?_⟩
        · intro _
          simp only [getConnectionDetailsFromConnectionCode]
          rw [show w2.now = w.now from hic2.trans hj2]
          rw [show w2.cache.getConnCode w.now ("jira", cc) = some body from
            (hic1.trans hj1).trans hrescode]
        · intro hcon
          cases hcon
      | ok cid =>
        have hdel : (((w2.cache.setJiraDetails w2.now body.connection_id
            { siteId := sid, selectedProjectId := none }
            (24 * 60 * 60)).delConnCode ("jira", cc)).getConnCode
            w2.now ("jira", cc)) = none :=
          getConnCode_delConnCode_same _ _ _
        refine ⟨Or.inl rfl, ?_, ?_⟩
        · intro hcon
          cases hcon
        · intro _
          constructor
          · simp only [getConnectionDetailsFromConnectionCode]
            rw [hdel]
          · rw [if_neg (by simp [hccne, hsidne])]
            simp only [getConnectionDetailsFromConnectionCode]
            rw [hdel]
  | ok si pi =>
    simp only []
    cases hcr : IntegrationGeneral.createConnection env ccm
        (getJiraConnectionDetails w body.connection_id).snd body.connection_id
        Provider.jira body.external_id body.refresh_token
        body.connection_expiry_date false body.juncture_project_id
        (some (jiraTransaction body.connection_id sid w.now false)) with
    | mk res w2 =>
      obtain ⟨hic1, hic2⟩ := integrationCreateConnection_connCode env ccm
        (getJiraConnectionDetails w body.connection_id).snd body.connection_id
        Provider.jira body.external_id body.refresh_token
        body.connection_expiry_date false body.juncture_project_id
        (some (jiraTransaction body.connection_id sid w.now false)) w.now
        ("jira", cc)
      rw [hcr] at hic1 hic2
      cases res with
      | error m =>
        obtain ⟨hm1, hm2⟩ := integrationCreateConnection_upd_cases env ccm
          (getJiraConnectionDetails w body.connection_id).snd body.connection_id
          Provider.jira body.external_id body.refresh_token
          body.connection_expiry_date body.juncture_project_id
          (jiraTransaction body.connection_id sid w.now false) henv m w2 hcr
        subst hm1
        refine ⟨Or.inr rfl, ?_, ?_⟩
        · intro _
          simp only [getConnectionDetailsFromConnectionCode]
          rw [show w2.now = w.now from hic2.trans hj2]
          rw [show w2.cache.getConnCode w.now ("jira", cc) = some body from
            (hic1.trans hj1).trans hrescode]
        · intro hcon
          cases hcon
      | ok cid =>
        have hdel : (((w2.cache.setJiraDetails w2.now body.connection_id
            { siteId := sid, selectedProjectId := pi }
            (24 * 60 * 60)).delConnCode ("jira", cc)).getConnCode
            w2.now ("jira", cc)) = none :=
          getConnCode_delConnCode_same _ _ _
        refine ⟨Or.inl rfl, ?_, ?_⟩
        · intro hcon
          cases hcon
        · intro _
          constructor
          · simp only [getConnectionDetailsFromConnectionCode]
            rw [hdel]
          · rw [if_neg (by simp [hccne, hsidne])]
            simp only [getConnectionDetailsFromConnectionCode]
            rw [hdel]

theorem updateConnectionInDB_zero_rows_witness :
    updateConnectionInDB emptyWorld "c1" "r" 100 none = (true, emptyWorld) ∧
    IntegrationGeneral.createConnection ossEnv noCcm emptyWorld "c1"
      Provider.jira (some "e1") "r" 100 false none none =
      (.ok "c1", emptyWorld) :=
  updateConnectionInDB_zero_rows ossEnv noCcm emptyWorld "c1" "r" 100
    (some "e1") none (by decide) (by decide)

theorem addConnectionToDB_atomic_witness :
    addConnectionToDB emptyWorld "c1" (some "e1") "r" 100 Provider.jira
      (some failTx) = (false, emptyWorld) ∧
    (∀ ext2,
      (addConnectionToDB emptyWorld "c1" (some "e1") "r" 100 Provider.jira
        ext2).fst = false →
      (addConnectionToDB emptyWorld "c1" (some "e1") "r" 100 Provider.jira
        ext2).snd = emptyWorld) :=
  addConnectionToDB_atomic emptyWorld "c1" (some "e1") "r" 100 Provider.jira
    failTx (fun _ => ⟨DbError.other, rfl⟩)

theorem commit_then_lookup_witness :
    (getConnectionID
      (addConnectionToDB emptyWorld "c1" (some "e1") "r" 100 Provider.jira
        none).snd (some "e1") Provider.jira).fst = some "c1" ∧
    (getConnectionID
      { (addConnectionToDB emptyWorld "c1" (some "e1") "r" 100 Provider.jira
          none).snd with cache := Cache.down } (some "e1") Provider.jira).fst =
      some "c1" :=
  commit_then_lookup emptyWorld "c1" "e1" "r" 100 Provider.jira none
    (addConnectionToDB emptyWorld "c1" (some "e1") "r" 100 Provider.jira
      none).snd
    (fun _ _ _ h => nomatch h) (by decide)

theorem c2_refresh_marks_invalid_iff_witness :
    (getNewAccessTokenFromConnection ossEnv noCcm
      (.err (some ⟨403, true, some "invalid_grant"⟩)) oneConnWorld "c1"
      Provider.jira none).fst =
      .error "Connection is invalid. The refresh token is no longer valid. Please reauthorize the connection." ∧
    (getNewAccessTokenFromConnection ossEnv noCcm
      (.err (some ⟨403, true, some "invalid_grant"⟩)) oneConnWorld "c1"
      Provider.jira none).snd.fst.db.connections =
      oneConnWorld.db.connections.map (fun c => if c.connectionId = "c1" then
        { c with invalidRefreshToken := true, lastUpdated := oneConnWorld.now }
        else c) :=
  (c2_refresh_marks_invalid_iff ossEnv noCcm
    (.err (some ⟨403, true, some "invalid_grant"⟩)) oneConnWorld "c1" none
    ⟨"c1", "rt", 99999, false, 0, 0⟩
    (getConnectionDetails oneConnWorld "c1").snd (by decide) (by decide)
    (by decide) (by decide) (by decide)).2.1
    (some ⟨403, true, some "invalid_grant"⟩) rfl (by decide)

theorem c1_amended_witness :
    (getAccessTokenHelper ossEnv noCcm (.ok "at2" "rt2" 4000) oneConnWorld "c1"
      Provider.jira none).fst = .ok "at2" (4000 - 300) ∧
    ((99999 : Int) < 99999 + ((4000 : Int) - 300) * 1000) ∧
    (getAccessTokenHelper ossEnv noCcm (.ok "at2" "rt2" 4000) oneConnWorld "c1"
      Provider.jira none).snd.snd =
      [ProviderCall.refreshTokenGrant "rt" ossEnv.defaultJiraClientId
        ossEnv.defaultJiraClientSecret] :=
  ⟨(c1_amended ossEnv noCcm oneConnWorld "c1" none
      ⟨"c1", "rt", 99999, false, 0, 0⟩
      (getConnectionDetails oneConnWorld "c1").snd "at2" "rt2" 4000
      (by decide) (by decide) (by decide) (by decide) (by decide) (by decide)
      (by decide)).1,
   (c1_amended ossEnv noCcm oneConnWorld "c1" none
      ⟨"c1", "rt", 99999, false, 0, 0⟩
      (getConnectionDetails oneConnWorld "c1").snd "at2" "rt2" 4000
      (by decide) (by decide) (by decide) (by decide) (by decide) (by decide)
      (by decide)).2.2.1,
   (c1_amended ossEnv noCcm oneConnWorld "c1" none
      ⟨"c1", "rt", 99999, false, 0, 0⟩
      (getConnectionDetails oneConnWorld "c1").snd "at2" "rt2" 4000
      (by decide) (by decide) (by decide) (by decide) (by decide) (by decide)
      (by decide)).2.2.2⟩

theorem c6_absent_state_witness :
    OAuthController.authorizationCallback ossEnv noCcm (.err none) "uuid1"
      emptyWorld "jira" (some "code") (some "state1") =
      (.err 400 "Invalid state or expired state. Please try again.",
        emptyWorld, []) :=
  c6_absent_state ossEnv noCcm (.err none) "uuid1" emptyWorld "code" "state1"
    (by decide) (by decide) (by decide)

theorem c7_state_survives_witness :
    ((OAuthController.authorizationCallback ossEnv noCcm (.ok "at1" "rt1" 4000)
        "uuid1" stateWorld "jira" (some "code") (some "state1")).snd.fst.cache.getRootEntry
        "state1" = some ⟨.state ⟨some "e1", none⟩, 600000⟩) ∧
    (OAuthController.verifyAndExtractState
      { (OAuthController.authorizationCallback ossEnv noCcm
          (.ok "at1" "rt1" 4000) "uuid1" stateWorld "jira" (some "code")
          (some "state1")).snd.fst with now := 1000 } "state1" =
      .ok (some "e1") none) :=
  ⟨(c7_state_survives ossEnv noCcm "uuid1" stateWorld "code" "state1" "at1"
      "rt1" 4000 ⟨some "e1", none⟩ 600000 (by decide) (by decide) (by decide)
      (by decide) (by decide) (by decide)).1,
   (c7_state_survives ossEnv noCcm "uuid1" stateWorld "code" "state1" "at1"
      "rt1" 4000 ⟨some "e1", none⟩ 600000 (by decide) (by decide) (by decide)
      (by decide) (by decide) (by decide)).2 1000 (by decide)⟩

theorem c5_code_single_use_witness :
    getConnectionDetailsFromConnectionCode
      (createJiraConnection ossEnv noCcm c5World (some "code1")
        (some "site9")).snd "jira" "code1" =
      .error "Connection ID not found: session is either expired or does not exist" ∧
    (createJiraConnection ossEnv noCcm
      (createJiraConnection ossEnv noCcm c5World (some "code1")
        (some "site9")).snd (some "code1") (some "site9")).fst =
      .err 400 "Connection ID not found: session is either expired or does not exist" :=
  (c5_code_single_use ossEnv noCcm c5World "code1" "site9" c5Body (by decide)
    (by decide) (by decide) (by decide)).2.2 (by decide)
